import Mathlib

/-!
Shallow embedding of the unimate-backend push-notification dispatch pipeline
(`src/modules/notification`): the platform-agnostic Push Router
(`PushNotificationService`), the APNs and FCM provider clients, the dispatch
worker (`NotificationWorkerService`), and device-token registration
(`NotificationService.registerToken`).  Provider network responses, the
OAuth access-token fetch and repository/log side effects are modelled as
explicit environment parameters; thrown JavaScript exceptions are modelled
with `Except String`.
-/

namespace Unimate

/-- `error` field of a `PushNotificationResult` (`{code, message}`). -/
structure PushError where
  code : String
  message : String
deriving Repr, DecidableEq

/-- Per-token outcome (`PushNotificationResult` in
`push-message.interface.ts`). -/
structure PushNotificationResult where
  success : Bool
  token : String
  error : Option PushError
deriving Repr, DecidableEq

/-- Aggregate outcome (`BatchPushNotificationResult` in
`push-message.interface.ts`). -/
structure BatchPushNotificationResult where
  deliveredTo : Nat
  failedCount : Nat
  totalDevices : Nat
  invalidTokens : List String
  results : List PushNotificationResult
deriving Repr, DecidableEq

/-- Notification payload (`PushNotificationPayload`).  `data` values are the
already-string-coerced map entries (FCM coerces scalars with `String(value)`;
only the coerced strings are observable downstream). -/
structure PushNotificationPayload where
  title : String
  body : String
  data : Option (List (String × String)) := none
  badge : Option Nat := none
  sound : Option String := none
  priority : Option String := none
  collapseKey : Option String := none
deriving Repr, DecidableEq

/-- JavaScript truthiness for an optional string: `undefined`, `null` and the
empty string are falsy. -/
def strTruthy : Option String → Bool
  | none => false
  | some s => s ≠ ""

/-- `a || b` for an optional string `a` and default `b` (JS `||` falls through
on `undefined`/`null`/empty string). -/
def strOr (a : Option String) (b : String) : String :=
  match a with
  | some s => if s = "" then b else s
  | none => b

/-- The chunking loop `for (let i = 0; i < tokens.length; i += batchSize)`
with `batch = tokens.slice(i, i + batchSize)`, written with structural fuel
so it computes by kernel reduction. -/
def chunkListAux (n : Nat) : Nat → List α → List (List α)
  | 0, _ => []
  | _, [] => []
  | fuel + 1, l => l.take n :: chunkListAux n fuel (l.drop n)

/-- Split `l` into consecutive chunks of at most `n` elements. -/
def chunkList (n : Nat) (l : List α) : List (List α) :=
  chunkListAux n l.length l

theorem chunkListAux_flatten (n : Nat) (hn : 0 < n) :
    ∀ (fuel : Nat) (l : List α), l.length ≤ fuel →
      (chunkListAux n fuel l).flatten = l := by
  intro fuel
  induction fuel with
  | zero =>
    intro l hl
    have : l = [] := List.eq_nil_of_length_eq_zero (Nat.le_zero.mp hl)
    simp [this, chunkListAux]
  | succ m ih =>
    intro l hl
    cases l with
    | nil => simp [chunkListAux]
    | cons x xs =>
      have hdrop : ((x :: xs).drop n).length ≤ m := by
        simp only [List.length_drop, List.length_cons] at *
        omega
      have := ih ((x :: xs).drop n) hdrop
      simp only [chunkListAux, List.flatten_cons]
      rw [this, List.take_append_drop]

theorem chunkList_flatten (n : Nat) (hn : 0 < n) (l : List α) :
    (chunkList n l).flatten = l :=
  chunkListAux_flatten n hn l.length l (Nat.le_refl _)

theorem chunkListAux_length (n : Nat) (hn : 0 < n) :
    ∀ (fuel : Nat) (l : List α), l.length ≤ fuel →
      (chunkListAux n fuel l).length = (l.length + n - 1) / n := by
  intro fuel
  induction fuel with
  | zero =>
    intro l hl
    have hnil : l = [] := List.eq_nil_of_length_eq_zero (Nat.le_zero.mp hl)
    subst hnil
    simp [chunkListAux, Nat.div_eq_of_lt (show n - 1 < n by omega)]
  | succ m ih =>
    intro l hl
    cases l with
    | nil => simp [chunkListAux, Nat.div_eq_of_lt (show n - 1 < n by omega)]
    | cons x xs =>
      have hdrop : ((x :: xs).drop n).length ≤ m := by
        simp only [List.length_drop, List.length_cons] at *
        omega
      have hrec := ih _ hdrop
      simp only [chunkListAux, List.length_cons, List.length_drop] at hrec ⊢
      rw [hrec]
      have h4 : xs.length + 1 + n - 1 = xs.length + n := by omega
      rw [h4, Nat.add_div_right _ hn]
      rcases Nat.lt_or_ge (xs.length + 1) n with hc | hc
      · have h0 : xs.length + 1 - n = 0 := by omega
        rw [h0]
        have h1 : (0 + n - 1) / n = 0 := Nat.div_eq_of_lt (by omega)
        have h2 : xs.length / n = 0 := Nat.div_eq_of_lt (by omega)
        rw [h1, h2]
      · have h3 : xs.length + 1 - n + n - 1 = xs.length := by omega
        rw [h3]

theorem chunkList_length (n : Nat) (hn : 0 < n) (l : List α) :
    (chunkList n l).length = (l.length + n - 1) / n :=
  chunkListAux_length n hn l.length l (Nat.le_refl _)

/-! ## APNs client (`apns.service.ts`, `apns.config.ts`) -/

/-- APNs credential configuration (`APNsConfig` in `apns.config.ts`).
`APNsConfigService.getConfig()` returning `null` is modelled as `none` in the
service state, so `apnsConfig.isConfigured()` is `Option.isSome`. -/
structure APNsConfig where
  keyId : String
  teamId : String
  bundleId : String
  key : String
  production : Bool
  defaultTopic : Option String
deriving Repr, DecidableEq

/-- The notification object handed to the `apn` library
(`APNsNotification` in `apns.service.ts`). -/
structure APNsNotification where
  alert : Option (String × String) := none
  badge : Option Nat := none
  sound : Option String := none
  topic : Option String := none
  priority : Option Nat := none
  payload : Option (List (String × String)) := none
  collapseId : Option String := none
deriving Repr, DecidableEq

/-- Builds the per-chunk notification (lines 235-255 of `apns.service.ts`):
alert from title/body, `sound || 'default'`, topic = bundle id,
priority 10 for `'high'` else 5, badge/data/collapseId only when present
(`collapseKey` guarded by JS truthiness). -/
def buildAPNsNotification (config : APNsConfig)
    (payload : PushNotificationPayload) : APNsNotification :=
  let base : APNsNotification :=
    { alert := some (payload.title, payload.body)
      sound := some (strOr payload.sound "default")
      topic := some config.bundleId
      priority := some (if payload.priority == some "high" then 10 else 5) }
  let n1 := match payload.badge with
    | some b => { base with badge := some b }
    | none => base
  let n2 := match payload.data with
    | some d => { n1 with payload := some d }
    | none => n1
  if strTruthy payload.collapseKey then { n2 with collapseId := payload.collapseKey }
  else n2

/-- One entry of the `apn` library's `failed` array.  The library reports
`status` as a number or numeric string; the model carries the parsed numeric
value (`parseInt` of a non-numeric string is `NaN`, modelled as `none`). -/
structure APNsFailure where
  device : String
  status : Option Nat
  reason : Option String
deriving Repr, DecidableEq

/-- Response of one `apnProvider.send` call: disjoint `sent`/`failed` token
partitions (`APNsResponse` in `apns.service.ts`). -/
structure APNsResponse where
  sent : List String
  failed : List APNsFailure
deriving Repr, DecidableEq

/-- `mapAPNsErrorCode` (`apns.service.ts` lines 328-353).  The JS guard
`if (!status)` also treats status `0` as missing. -/
def mapAPNsErrorCode (status : Option Nat) : String :=
  match status with
  | none => "unknown_error"
  | some s =>
    if s = 0 then "unknown_error"
    else if s = 400 then "bad_request"
    else if s = 403 then "forbidden"
    else if s = 405 then "method_not_allowed"
    else if s = 410 then "unregistered_token"
    else if s = 413 then "payload_too_large"
    else if s = 429 then "too_many_requests"
    else if s = 500 ∨ s = 503 then "server_error"
    else "unknown_error"

/-- `errorCode === 'invalid_token' || errorCode === 'unregistered_token'`
(`apns.service.ts` lines 280-281). -/
def apnsFailureIsInvalid (f : APNsFailure) : Bool :=
  mapAPNsErrorCode f.status == "invalid_token" ||
    mapAPNsErrorCode f.status == "unregistered_token"

/-- Per-token failure result built from one APNs failure entry
(`message: failure.response?.reason || 'Unknown APNs error'`). -/
def apnsFailureResult (f : APNsFailure) : PushNotificationResult :=
  { success := false
    token := f.device
    error := some { code := mapAPNsErrorCode f.status
                    message := strOr f.reason "Unknown APNs error" } }

/-- Aggregate result of a provider call together with the number of outbound
provider/HTTP calls the client issued while producing it. -/
structure ProviderOutcome where
  result : BatchPushNotificationResult
  providerCalls : Nat
deriving Repr, DecidableEq

/-- Mutable accumulators of a provider `sendToTokens` loop
(`results`, `invalidTokens`, `deliveredTo`, `failedCount`) plus the call
counter. -/
structure Agg where
  delivered : Nat
  failed : Nat
  invalid : List String
  results : List PushNotificationResult
  calls : Nat
deriving Repr, DecidableEq

/-- One iteration of the APNs batch loop (`apns.service.ts` lines 231-314):
a single `apnProvider.send` per chunk; on a resolved response the `sent` and
`failed` entries are folded into the accumulators, on a thrown error every
token of the chunk is marked `batch_error` without aborting later chunks. -/
def apnsChunkStep (send : APNsNotification → List String → Except String APNsResponse)
    (notif : APNsNotification) (acc : Agg) (batch : List String) : Agg :=
  match send notif batch with
  | .ok r =>
      { delivered := acc.delivered + r.sent.length
        failed := acc.failed + r.failed.length
        invalid := acc.invalid ++ (r.failed.filter apnsFailureIsInvalid).map (·.device)
        results := acc.results
          ++ r.sent.map (fun d => { success := true, token := d, error := none })
          ++ r.failed.map apnsFailureResult
        calls := acc.calls + 1 }
  | .error msg =>
      { delivered := acc.delivered
        failed := acc.failed + batch.length
        invalid := acc.invalid
        results := acc.results ++ batch.map (fun t =>
          { success := false, token := t
            error := some { code := "batch_error", message := msg } })
        calls := acc.calls + 1 }

/-- State of `APNsService`: whether `this.apnProvider` is non-null, the
configuration, and the provider network behaviour (a thrown/rejected
`apnProvider.send` is `Except.error` with the error message). -/
structure APNsState where
  providerPresent : Bool
  config : Option APNsConfig
  send : APNsNotification → List String → Except String APNsResponse

/-- `APNsService.isConfigured()`. -/
def APNsService.isConfigured (st : APNsState) : Bool :=
  st.providerPresent && st.config.isSome

/-- All-failed batch with code `apns_not_configured` (the two early returns
of `APNsService.sendToTokens`, lines 189-222). -/
def apnsNotConfiguredResult (tokens : List String) (message : String) :
    BatchPushNotificationResult :=
  { deliveredTo := 0
    failedCount := tokens.length
    totalDevices := tokens.length
    invalidTokens := []
    results := tokens.map fun t =>
      { success := false, token := t
        error := some { code := "apns_not_configured", message := message } } }

/-- `APNsService.sendToTokens` (`apns.service.ts` lines 185-323). -/
def APNsService.sendToTokens (st : APNsState) (tokens : List String)
    (payload : PushNotificationPayload) : ProviderOutcome :=
  if !st.providerPresent || tokens.length == 0 then
    { result := apnsNotConfiguredResult tokens "APNs provider is not configured"
      providerCalls := 0 }
  else
    match st.config with
    | none =>
      { result := apnsNotConfiguredResult tokens "APNs configuration is missing"
        providerCalls := 0 }
    | some cfg =>
      let notif := buildAPNsNotification cfg payload
      let agg := (chunkList 500 tokens).foldl (apnsChunkStep st.send notif)
        { delivered := 0, failed := 0, invalid := [], results := [], calls := 0 }
      { result := { deliveredTo := agg.delivered
                    failedCount := agg.failed
                    totalDevices := tokens.length
                    invalidTokens := agg.invalid
                    results := agg.results }
        providerCalls := agg.calls }

/-! ## FCM client (`fcm.service.ts`, `fcm.config.ts`) -/

/-- `FCMConfig` from `fcm.config.ts`; `getConfig()` returning `null` is
modelled as `none` in the service state. -/
structure FCMConfig where
  projectId : String
  privateKey : String
  clientEmail : String
  useV1API : Bool
  serverKey : Option String
deriving Repr, DecidableEq

/-- Shape of a thrown axios error as the FCM service inspects it:
HTTP `response.status`, `response.data.error.status` (v1 google status
string), `response.data.error.message` (v1), `response.data.error` as a
plain string (legacy), and `error.message`.  A network failure without a
response leaves every field `none`. -/
structure FCMHttpError where
  status : Option Nat := none
  errorStatus : Option String := none
  dataErrorMessage : Option String := none
  dataError : Option String := none
  message : Option String := none
deriving Repr, DecidableEq

/-- `mapFCMErrorCode` (`fcm.service.ts` lines 777-803): HTTP status is
checked first (JS truthiness skips status 0), an unmatched status falls
through to the google error-status string, else `unknown_error`. -/
def mapFCMErrorCode (e : FCMHttpError) : String :=
  let byStatus : Option String :=
    match e.status with
    | some s =>
      if s = 0 then none
      else if s = 400 then some "bad_request"
      else if s = 401 then some "unauthorized"
      else if s = 403 then some "forbidden"
      else if s = 404 then some "invalid_token"
      else if s = 429 then some "too_many_requests"
      else if s ≥ 500 then some "server_error"
      else none
    | none => none
  match byStatus with
  | some c => c
  | none =>
    match e.errorStatus with
    | some ec =>
      if ec = "INVALID_ARGUMENT" then "invalid_token"
      else if ec = "NOT_FOUND" then "unregistered_token"
      else if ec = "PERMISSION_DENIED" then "forbidden"
      else if ec = "UNAUTHENTICATED" then "unauthorized"
      else if ec = "RESOURCE_EXHAUSTED" then "too_many_requests"
      else "unknown_error"
    | none => "unknown_error"

/-- Whether `needle` occurs at the start of `hay`. -/
def startsWithList [BEq α] : List α → List α → Bool
  | _, [] => true
  | [], _ :: _ => false
  | h :: hs, n :: ns => h == n && startsWithList hs ns

/-- Whether `needle` occurs as a contiguous segment of `hay`. -/
def listHasSegment [BEq α] (needle : List α) : List α → Bool
  | [] => needle.isEmpty
  | x :: t => startsWithList (x :: t) needle || listHasSegment needle t

/-- JS `String.prototype.includes`. -/
def strIncludes (hay needle : String) : Bool :=
  listHasSegment needle.toList hay.toList

/-- `mapLegacyFCMErrorCode` (`fcm.service.ts` lines 808-814). -/
def mapLegacyFCMErrorCode (errorMessage : String) : String :=
  if strIncludes errorMessage "InvalidRegistration" then "invalid_token"
  else if strIncludes errorMessage "NotRegistered" then "unregistered_token"
  else if strIncludes errorMessage "MismatchSenderId" then "forbidden"
  else if strIncludes errorMessage "InvalidPackageName" then "bad_request"
  else "unknown_error"

/-- `formatDataPayload`: FCM requires string-only data values; the model's
payload data already carries the `String(value)`-coerced strings, so the
coercion maps each entry to itself, and `undefined` stays `undefined`. -/
def formatDataPayload (data : Option (List (String × String))) :
    Option (List (String × String)) :=
  match data with
  | none => none
  | some d => some (d.map fun kv => (kv.1, kv.2))

/-- Body of one FCM v1 `messages:send` request (lines 487-514). -/
structure FCMV1Message where
  token : String
  title : String
  body : String
  data : Option (List (String × String))
  androidPriority : String
  apnsPriority : String
  badge : Option Nat
  sound : String
deriving Repr, DecidableEq

def buildFCMV1Message (payload : PushNotificationPayload) (token : String) :
    FCMV1Message :=
  { token := token
    title := payload.title
    body := payload.body
    data := formatDataPayload payload.data
    androidPriority := if payload.priority == some "high" then "high" else "normal"
    apnsPriority := if payload.priority == some "high" then "10" else "5"
    badge := payload.badge
    sound := strOr payload.sound "default" }

/-- Body of one legacy `fcm/send` request (lines 570-579); the field named
`to` in the source is written `«to»` because `to` is reserved in Lean. -/
structure FCMLegacyMessage where
  «to» : String
  title : String
  body : String
  data : Option (List (String × String))
  priority : String
  collapseKey : Option String
deriving Repr, DecidableEq

def buildFCMLegacyMessage (payload : PushNotificationPayload) (token : String) :
    FCMLegacyMessage :=
  { «to» := token
    title := payload.title
    body := payload.body
    data := formatDataPayload payload.data
    priority := if payload.priority == some "high" then "high" else "normal"
    collapseKey := payload.collapseKey }

/-- FCM v1 success response carries a message `name`. -/
structure FCMV1Response where
  name : Option String := none
deriving Repr, DecidableEq

structure FCMLegacyResultEntry where
  error : Option String := none
deriving Repr, DecidableEq

/-- Legacy FCM response: `{success?, results?: [{error?}]}`. -/
structure FCMLegacyResponse where
  success : Option Nat := none
  results : Option (List FCMLegacyResultEntry) := none
deriving Repr, DecidableEq

/-- Network/auth behaviour of the FCM service: the OAuth token fetch
(`authClient.getAccessToken()`, `Except.error` when it throws) and the two
HTTP endpoints, given the auth credential and the built message body. -/
structure FCMEnv where
  accessToken : Except FCMHttpError (Option String)
  postV1 : String → FCMV1Message → Except FCMHttpError FCMV1Response
  postLegacy : String → FCMLegacyMessage → Except FCMHttpError FCMLegacyResponse

/-- `FCMService.sendV1API` (lines 459-559), returning the per-token result
together with the number of HTTP calls issued (0 when the request is never
sent, 1 otherwise). -/
def FCMService.sendV1API (authClientPresent : Bool) (env : FCMEnv)
    (payload : PushNotificationPayload) (token : String) :
    PushNotificationResult × Nat :=
  if !authClientPresent then
    ({ success := false, token := token
       error := some { code := "fcm_not_configured"
                       message := "FCM auth client is not initialized" } }, 0)
  else
    match env.accessToken with
    | .error e =>
        ({ success := false, token := token
           error := some { code := mapFCMErrorCode e
                           message := strOr e.dataErrorMessage
                             (strOr e.message "Unknown FCM error") } }, 0)
    | .ok tok =>
      if !strTruthy tok then
        ({ success := false, token := token
           error := some { code := "auth_error"
                           message := "Failed to get access token" } }, 0)
      else
        match env.postV1 (tok.getD "") (buildFCMV1Message payload token) with
        | .ok resp =>
          if strTruthy resp.name then
            ({ success := true, token := token, error := none }, 1)
          else
            ({ success := false, token := token
               error := some { code := "unknown_error"
                               message := "Unexpected response from FCM" } }, 1)
        | .error e =>
          ({ success := false, token := token
             error := some { code := mapFCMErrorCode e
                             message := strOr e.dataErrorMessage
                               (strOr e.message "Unknown FCM error") } }, 1)

/-- `responseData.results?.[0]?.error || 'Unknown error'`. -/
def legacyErrorMessage (r : FCMLegacyResponse) : String :=
  match r.results with
  | some (e :: _) => strOr e.error "Unknown error"
  | _ => "Unknown error"

/-- `FCMService.sendLegacyAPI` (lines 564-631). -/
def FCMService.sendLegacyAPI (env : FCMEnv) (payload : PushNotificationPayload)
    (serverKey : String) (token : String) : PushNotificationResult × Nat :=
  match env.postLegacy serverKey (buildFCMLegacyMessage payload token) with
  | .ok resp =>
    if resp.success == some 1 then
      ({ success := true, token := token, error := none }, 1)
    else
      let msg := legacyErrorMessage resp
      ({ success := false, token := token
         error := some { code := mapLegacyFCMErrorCode msg, message := msg } }, 1)
  | .error e =>
    ({ success := false, token := token
       error := some { code := mapFCMErrorCode e
                       message := strOr e.dataError
                         (strOr e.message "Unknown error") } }, 1)

/-- State of `FCMService`: configuration, whether `this.fcmEndpoint` and
`this.authClient` are non-null, and the network behaviour. -/
structure FCMState where
  config : Option FCMConfig
  endpointPresent : Bool
  authClientPresent : Bool
  env : FCMEnv

/-- `FCMService.isConfigured()`. -/
def FCMService.isConfigured (st : FCMState) : Bool :=
  st.endpointPresent && st.config.isSome

/-- Per-token dispatch inside `FCMService.sendToTokens`: v1 or legacy mode
as selected once by configuration. -/
def fcmProcessToken (st : FCMState) (cfg : FCMConfig)
    (payload : PushNotificationPayload) (token : String) :
    PushNotificationResult × Nat :=
  if cfg.useV1API then FCMService.sendV1API st.authClientPresent st.env payload token
  else FCMService.sendLegacyAPI st.env payload (cfg.serverKey.getD "") token

/-- `pushResult.error?.code === 'invalid_token' ||
pushResult.error?.code === 'unregistered_token'`. -/
def fcmTokenIsInvalid (r : PushNotificationResult) : Bool :=
  match r.error with
  | some e => e.code == "invalid_token" || e.code == "unregistered_token"
  | none => false

/-- Folding one settled per-token outcome into the accumulators
(the `batchResults.forEach` bodies, lines 676-705 and 715-744). -/
def fcmTokenStep (st : FCMState) (cfg : FCMConfig)
    (payload : PushNotificationPayload) (a : Agg) (token : String) : Agg :=
  let pr := fcmProcessToken st cfg payload token
  { delivered := a.delivered + (if pr.1.success then 1 else 0)
    failed := a.failed + (if pr.1.success then 0 else 1)
    invalid := a.invalid ++
      (if !pr.1.success && fcmTokenIsInvalid pr.1 then [token] else [])
    results := a.results ++ [pr.1]
    calls := a.calls + pr.2 }

/-- One iteration of the FCM batch loop (lines 666-746): the chunk members
are sent individually and settled without one rejection aborting siblings;
`sendV1API`/`sendLegacyAPI` catch every error, so each settled outcome is a
fulfilled `PushNotificationResult`. -/
def fcmChunkStep (st : FCMState) (cfg : FCMConfig)
    (payload : PushNotificationPayload) (acc : Agg) (batch : List String) : Agg :=
  batch.foldl (fcmTokenStep st cfg payload) acc

/-- All-failed batch with code `fcm_not_configured` (the early return of
`FCMService.sendToTokens`, lines 641-657). -/
def fcmNotConfiguredResult (tokens : List String) : BatchPushNotificationResult :=
  { deliveredTo := 0
    failedCount := tokens.length
    totalDevices := tokens.length
    invalidTokens := []
    results := tokens.map fun t =>
      { success := false, token := t
        error := some { code := "fcm_not_configured"
                        message := "FCM provider is not configured" } } }

/-- `FCMService.sendToTokens` (`fcm.service.ts` lines 637-755). -/
def FCMService.sendToTokens (st : FCMState) (tokens : List String)
    (payload : PushNotificationPayload) : ProviderOutcome :=
  match st.config with
  | none => { result := fcmNotConfiguredResult tokens, providerCalls := 0 }
  | some cfg =>
    if !st.endpointPresent || tokens.length == 0 then
      { result := fcmNotConfiguredResult tokens, providerCalls := 0 }
    else
      let agg := (chunkList 500 tokens).foldl (fcmChunkStep st cfg payload)
        { delivered := 0, failed := 0, invalid := [], results := [], calls := 0 }
      { result := { deliveredTo := agg.delivered
                    failedCount := agg.failed
                    totalDevices := tokens.length
                    invalidTokens := agg.invalid
                    results := agg.results }
        providerCalls := agg.calls }

/-! ## Push Router (`PushNotificationService`, `src/unnamed/part_019`) -/

/-- The all-zero batch the router returns for empty inputs. -/
def emptyBatchResult : BatchPushNotificationResult :=
  { deliveredTo := 0, failedCount := 0, totalDevices := 0
    invalidTokens := [], results := [] }

/-- `PushNotificationService.createEmptyResult` (lines 329-344): every token
marked failed with code `not_configured`. -/
def createEmptyResult (tokens : List String) : BatchPushNotificationResult :=
  { deliveredTo := 0
    failedCount := tokens.length
    totalDevices := tokens.length
    invalidTokens := []
    results := tokens.map fun t =>
      { success := false, token := t
        error := some { code := "not_configured"
                        message := "Push notification service not configured" } } }

/-- The catch-block batch of `PushNotificationService.sendToTokens`
(lines 61-77): every token marked failed with code `send_error`. -/
def sendErrorResult (tokens : List String) (msg : String) :
    BatchPushNotificationResult :=
  { deliveredTo := 0
    failedCount := tokens.length
    totalDevices := tokens.length
    invalidTokens := []
    results := tokens.map fun t =>
      { success := false, token := t
        error := some { code := "send_error", message := msg } } }

/-- The router's view of its two provider clients: their `isConfigured()`
and their `sendToTokens`, `Except`-valued because the router's `try/catch`
must also handle a rejected provider promise. -/
structure RouterDeps where
  apnsIsConfigured : Bool
  fcmIsConfigured : Bool
  apnsSend : List String → PushNotificationPayload →
    Except String BatchPushNotificationResult
  fcmSend : List String → PushNotificationPayload →
    Except String BatchPushNotificationResult

/-- Result of a router call together with how often each provider client's
`sendToTokens` was invoked. -/
structure RouterOutcome where
  result : BatchPushNotificationResult
  apnsCalls : Nat
  fcmCalls : Nat
deriving Repr, DecidableEq

def zeroRouterOutcome : RouterOutcome :=
  { result := emptyBatchResult, apnsCalls := 0, fcmCalls := 0 }

/-- `PushNotificationService.sendToTokens` (lines 27-78): empty input gives
the all-zero batch; `ios`/`android` route to the matching client when it is
configured and to `createEmptyResult` when it is not; any other platform
value gives `createEmptyResult` without contacting a provider; a provider
exception is caught and mapped to the all-`send_error` batch, so the
function is total — it never propagates an exception. -/
def PushNotificationService.sendToTokens (deps : RouterDeps)
    (tokens : List String) (platform : String)
    (payload : PushNotificationPayload) : RouterOutcome :=
  if tokens.length == 0 then
    zeroRouterOutcome
  else if platform == "ios" then
    if !deps.apnsIsConfigured then
      { result := createEmptyResult tokens, apnsCalls := 0, fcmCalls := 0 }
    else
      match deps.apnsSend tokens payload with
      | .ok r => { result := r, apnsCalls := 1, fcmCalls := 0 }
      | .error msg =>
        { result := sendErrorResult tokens msg, apnsCalls := 1, fcmCalls := 0 }
  else if platform == "android" then
    if !deps.fcmIsConfigured then
      { result := createEmptyResult tokens, apnsCalls := 0, fcmCalls := 0 }
    else
      match deps.fcmSend tokens payload with
      | .ok r => { result := r, apnsCalls := 0, fcmCalls := 1 }
      | .error msg =>
        { result := sendErrorResult tokens msg, apnsCalls := 0, fcmCalls := 1 }
  else
    { result := createEmptyResult tokens, apnsCalls := 0, fcmCalls := 0 }

/-- A `{token, platform}` pair as handed to `sendToDevices`. -/
structure DeviceRef where
  token : String
  platform : String
deriving Repr, DecidableEq

/-- The additive merge inside `sendToDevices` (lines 112-132): deliveredTo,
failedCount, invalidTokens and results are accumulated; `totalDevices`
stays as initialised. -/
def addGroupResult (acc : RouterOutcome) (r : RouterOutcome) : RouterOutcome :=
  { result := { acc.result with
      deliveredTo := acc.result.deliveredTo + r.result.deliveredTo
      failedCount := acc.result.failedCount + r.result.failedCount
      invalidTokens := acc.result.invalidTokens ++ r.result.invalidTokens
      results := acc.result.results ++ r.result.results }
    apnsCalls := acc.apnsCalls + r.apnsCalls
    fcmCalls := acc.fcmCalls + r.fcmCalls }

/-- `PushNotificationService.sendToDevices` (lines 83-136): partitions the
list into the `ios` and `android` groups, initialises `totalDevices` to the
full device count, and sends each non-empty group through `sendToTokens`. -/
def PushNotificationService.sendToDevices (deps : RouterDeps)
    (devices : List DeviceRef) (payload : PushNotificationPayload) :
    RouterOutcome :=
  if devices.length == 0 then
    zeroRouterOutcome
  else
    let iosDevices := (devices.filter fun d => d.platform == "ios").map (·.token)
    let androidDevices :=
      (devices.filter fun d => d.platform == "android").map (·.token)
    let init : RouterOutcome :=
      { result := { deliveredTo := 0, failedCount := 0
                    totalDevices := devices.length
                    invalidTokens := [], results := [] }
        apnsCalls := 0, fcmCalls := 0 }
    let afterIos :=
      if iosDevices.length > 0 then
        addGroupResult init
          (PushNotificationService.sendToTokens deps iosDevices "ios" payload)
      else init
    if androidDevices.length > 0 then
      addGroupResult afterIos
        (PushNotificationService.sendToTokens deps androidDevices "android" payload)
    else afterIos

/-- Router dependencies wired to the actual provider client models; the
client models are total, so the `Except` is always `ok`. -/
def depsOfServices (apns : APNsState) (fcm : FCMState) : RouterDeps :=
  { apnsIsConfigured := APNsService.isConfigured apns
    fcmIsConfigured := FCMService.isConfigured fcm
    apnsSend := fun tokens payload =>
      .ok (APNsService.sendToTokens apns tokens payload).result
    fcmSend := fun tokens payload =>
      .ok (FCMService.sendToTokens fcm tokens payload).result }

/-! ## Registry-resolving helpers (`sendToUsers`, `sendToDepartment(s)`,
`sendToAll`) -/

/-- A row of the `devices` table (`device.entity.ts`): unique on
`(userId, token)`; `platform` and `departmentId` are nullable columns. -/
structure DeviceRow where
  id : Nat
  userId : String
  token : String
  platform : Option String
  departmentId : Option String
  lastActiveAt : Nat
deriving Repr, DecidableEq

/-- `(d.platform || 'android')` — a null/missing (or empty) stored platform
is treated as `android`. -/
def platformOrAndroid (p : Option String) : String :=
  strOr p "android"

/-- `{ token: d.token, platform: (d.platform || 'android') }`. -/
def toDeviceRef (d : DeviceRow) : DeviceRef :=
  { token := d.token, platform := platformOrAndroid d.platform }

/-- `deviceRepository.find({ where: { userId: In(userIds) } })`, modelled as
a storage-order filter of the table. -/
def findByUsers (repo : List DeviceRow) (userIds : List String) : List DeviceRow :=
  repo.filter fun d => userIds.contains d.userId

/-- `deviceRepository.find({ where: { departmentId } })`. -/
def findByDepartment (repo : List DeviceRow) (departmentId : String) :
    List DeviceRow :=
  repo.filter fun d => d.departmentId == some departmentId

/-- `deviceRepository.find({ where: { departmentId: In(departmentIds) } })`. -/
def findByDepartments (repo : List DeviceRow) (departmentIds : List String) :
    List DeviceRow :=
  repo.filter fun d =>
    match d.departmentId with
    | some x => departmentIds.contains x
    | none => false

/-- One `forEach` body of the `Map`-based deduplication: skip the device
when its token is already present, otherwise append it. -/
def dedupStep (acc : List DeviceRef) (d : DeviceRef) : List DeviceRef :=
  if acc.any fun e => e.token == d.token then acc else acc ++ [d]

/-- The `Map`-based first-occurrence-wins deduplication of
`sendToDepartments`/`sendToAll` (lines 232-263, 268-303): a JS `Map`
preserves insertion order and `set` is skipped when the token is present. -/
def dedupByToken (ds : List DeviceRef) : List DeviceRef :=
  ds.foldl dedupStep []

/-- The device list `sendToUsers` delegates to `sendToDevices`. -/
def sendToUsersDeviceList (repo : List DeviceRow) (userIds : List String) :
    List DeviceRef :=
  (findByUsers repo userIds).map toDeviceRef

/-- The device list `sendToDepartment` delegates to `sendToDevices`. -/
def sendToDepartmentDeviceList (repo : List DeviceRow) (departmentId : String) :
    List DeviceRef :=
  (findByDepartment repo departmentId).map toDeviceRef

/-- The device list `sendToDepartments` delegates to `sendToDevices`. -/
def sendToDepartmentsDeviceList (repo : List DeviceRow)
    (departmentIds : List String) : List DeviceRef :=
  dedupByToken ((findByDepartments repo departmentIds).map toDeviceRef)

/-- The device list `sendToAll` delegates to `sendToDevices`. -/
def sendToAllDeviceList (repo : List DeviceRow) : List DeviceRef :=
  dedupByToken (repo.map toDeviceRef)

/-- `PushNotificationService.sendToUsers` (lines 141-177): resolves devices
for the users and delegates to `sendToDevices` without deduplication. -/
def PushNotificationService.sendToUsers (deps : RouterDeps)
    (repo : List DeviceRow) (userIds : List String)
    (payload : PushNotificationPayload) : RouterOutcome :=
  if userIds.length == 0 then zeroRouterOutcome
  else if (findByUsers repo userIds).length == 0 then zeroRouterOutcome
  else
    PushNotificationService.sendToDevices deps
      (sendToUsersDeviceList repo userIds) payload

/-- `PushNotificationService.sendToDepartment` (lines 182-208): same shape
as `sendToUsers`, also without deduplication. -/
def PushNotificationService.sendToDepartment (deps : RouterDeps)
    (repo : List DeviceRow) (departmentId : String)
    (payload : PushNotificationPayload) : RouterOutcome :=
  if (findByDepartment repo departmentId).length == 0 then zeroRouterOutcome
  else
    PushNotificationService.sendToDevices deps
      (sendToDepartmentDeviceList repo departmentId) payload

/-- `PushNotificationService.sendToDepartments` (lines 232-263): resolves,
deduplicates by token (first occurrence wins), then delegates. -/
def PushNotificationService.sendToDepartments (deps : RouterDeps)
    (repo : List DeviceRow) (departmentIds : List String)
    (payload : PushNotificationPayload) : RouterOutcome :=
  if departmentIds.length == 0 then zeroRouterOutcome
  else
    let uniqueDevices := sendToDepartmentsDeviceList repo departmentIds
    if uniqueDevices.length == 0 then zeroRouterOutcome
    else PushNotificationService.sendToDevices deps uniqueDevices payload

/-- `PushNotificationService.sendToAll` (lines 268-303): resolves every
device, deduplicates by token, then delegates. -/
def PushNotificationService.sendToAll (deps : RouterDeps)
    (repo : List DeviceRow) (payload : PushNotificationPayload) :
    RouterOutcome :=
  if repo.length == 0 then zeroRouterOutcome
  else
    PushNotificationService.sendToDevices deps (sendToAllDeviceList repo) payload

/-! ## Token cleanup and Dispatch Worker
(`cleanupInvalidTokens` in `part_019`, `notification-worker.service.ts`) -/

/-- `PushNotificationService.cleanupInvalidTokens` (lines 309-324): no-op on
an empty list; otherwise one repository delete whose failure is caught and
only logged — the method never propagates an error.  The value is the list
of argument lists of the repository delete calls issued, identical on the
delete's success and failure. -/
def PushNotificationService.cleanupInvalidTokens
    (deleteByTokens : List String → Except String Unit)
    (invalidTokens : List String) : List (List String) :=
  if invalidTokens.length == 0 then []
  else
    match deleteByTokens invalidTokens with
    | .ok _ => [invalidTokens]
    | .error _ => [invalidTokens]

/-- `NotificationJob` (`push-message.interface.ts`); the opaque `metadata`
map is omitted — the worker only forwards it to the log. -/
structure NotificationJob where
  type : String
  tokens : List String
  platform : String
  payload : PushNotificationPayload
  departmentId : Option String

/-- `groupTokensByPlatform` (worker lines 134-147): the job's single
platform keys all tokens. -/
def groupTokensByPlatform (tokens : List String) (platform : String) :
    List (String × List String) :=
  [(platform, tokens)]

/-- One Delivery Log record as `logNotification` receives it; the wall-clock
`duration` and the opaque `metadata` are omitted. -/
structure LogRecord where
  type : String
  departmentId : Option String
  totalDevices : Nat
  deliveredTo : Nat
  failedCount : Nat
  invalidTokens : Nat
  error : Option String
deriving Repr, DecidableEq

/-- Side effects available to the worker: the Device Registry delete used by
the cleanup, and the Delivery Log write (which may throw). -/
structure WorkerEnv where
  deleteByTokens : List String → Except String Unit
  logOutcome : LogRecord → Except String Unit

/-- Observable behaviour of one `processNotificationJob` run: the registry
delete calls, the log-write attempts in order, and the job outcome (`ok`
for completion, `error` for a re-thrown exception that triggers retry). -/
structure WorkerTrace where
  cleanupDeleteCalls : List (List String)
  logRecords : List LogRecord
  outcome : Except String Unit

/-- The platform-group send loop of `processNotificationJob` (lines 67-85):
`(totalDelivered, totalFailed, allInvalidTokens)` after all groups. -/
def workerSendAggregate (deps : RouterDeps) (job : NotificationJob) :
    Nat × Nat × List String :=
  (groupTokensByPlatform job.tokens job.platform).foldl
    (fun (a : Nat × Nat × List String) g =>
      if g.2.length == 0 then a
      else
        let r := (PushNotificationService.sendToTokens deps g.2 g.1 job.payload).result
        (a.1 + r.deliveredTo, a.2.1 + r.failedCount, a.2.2 ++ r.invalidTokens))
    (0, 0, [])

/-- Tail of `processNotificationJob` from the first log write on: the
success record is written; if that throws, the catch writes the failure
record (built from the thrown error) and re-throws. -/
def workerFinish (logOutcome : LogRecord → Except String Unit)
    (cleanupCalls : List (List String))
    (successRecord : LogRecord) (failureRecord : String → LogRecord) :
    WorkerTrace :=
  match logOutcome successRecord with
  | .ok _ =>
    { cleanupDeleteCalls := cleanupCalls, logRecords := [successRecord]
      outcome := .ok () }
  | .error e =>
    match logOutcome (failureRecord e) with
    | .ok _ =>
      { cleanupDeleteCalls := cleanupCalls
        logRecords := [successRecord, failureRecord e], outcome := .error e }
    | .error e2 =>
      { cleanupDeleteCalls := cleanupCalls
        logRecords := [successRecord, failureRecord e], outcome := .error e2 }

/-- `NotificationWorkerService.processNotificationJob` (lines 56-130):
groups tokens by platform, sends each non-empty group through the Push
Router, sums deliveredTo/failedCount, concatenates invalidTokens, runs the
token cleanup when any invalid tokens were collected, then writes one log
record; on an exception it writes a failure record (failedCount = total)
and re-throws.  The router and the cleanup are total, so the only throwing
step is the log write, which happens after cleanup. -/
def NotificationWorkerService.processNotificationJob (deps : RouterDeps)
    (env : WorkerEnv) (job : NotificationJob) (queueType : String) :
    WorkerTrace :=
  let agg := workerSendAggregate deps job
  let totalDelivered := agg.1
  let totalFailed := agg.2.1
  let allInvalidTokens := agg.2.2
  let cleanupCalls :=
    if allInvalidTokens.length > 0 then
      PushNotificationService.cleanupInvalidTokens env.deleteByTokens allInvalidTokens
    else []
  workerFinish env.logOutcome cleanupCalls
    { type := queueType, departmentId := job.departmentId
      totalDevices := job.tokens.length, deliveredTo := totalDelivered
      failedCount := totalFailed, invalidTokens := allInvalidTokens.length
      error := none }
    (fun e =>
      { type := queueType, departmentId := job.departmentId
        totalDevices := job.tokens.length, deliveredTo := 0
        failedCount := job.tokens.length, invalidTokens := 0
        error := some e })

/-! ## Device registration (`NotificationService.registerToken`,
`notification.service.ts` lines 224-256) -/

/-- Device table state plus the next generated primary key; row ids are
unique and below `nextId` in any state the database can reach. -/
structure DeviceDB where
  rows : List DeviceRow
  nextId : Nat
deriving Repr, DecidableEq

/-- The `(userId, token)` match predicate of the unique index. -/
def matchesUserToken (userId token : String) (r : DeviceRow) : Bool :=
  r.userId == userId && r.token == token

/-- `deviceRepository.findOne({ where: { userId, token } })`. -/
def findOneByUserToken (db : DeviceDB) (userId token : String) :
    Option DeviceRow :=
  db.rows.find? (matchesUserToken userId token)

/-- `NotificationService.registerToken`: update
`lastActiveAt`/`platform`/`departmentId` of the existing `(userId, token)`
row when present, insert a fresh row otherwise.  `now` is the clock value
of `new Date()`. -/
def NotificationService.registerToken (db : DeviceDB) (userId token : String)
    (platform departmentId : Option String) (now : Nat) : DeviceDB :=
  match findOneByUserToken db userId token with
  | some existing =>
    { db with rows := db.rows.map fun r =>
        if r.id == existing.id then
          { r with
              lastActiveAt := now
              platform := platform
              departmentId := departmentId }
        else r }
  | none =>
    let fresh : DeviceRow :=
      { id := db.nextId, userId := userId, token := token
        platform := platform, departmentId := departmentId
        lastActiveAt := now }
    { rows := db.rows ++ [fresh], nextId := db.nextId + 1 }

/-- Number of rows for a `(userId, token)` pair. -/
def countUserToken (db : DeviceDB) (userId token : String) : Nat :=
  db.rows.countP (matchesUserToken userId token)

/-! ## General lemmas -/

theorem foldl_chunks {β γ : Type _} (f : β → γ → β) :
    ∀ (cs : List (List γ)) (acc : β),
      cs.foldl (fun a b => b.foldl f a) acc = cs.flatten.foldl f acc := by
  intro cs
  induction cs with
  | nil => intro acc; rfl
  | cons c cs ih =>
    intro acc
    simp only [List.foldl_cons, List.flatten_cons, List.foldl_append]
    exact ih _

theorem eq_of_mem_of_length_le_one {α : Type _} {l : List α} {a b : α}
    (h : l.length ≤ 1) (ha : a ∈ l) (hb : b ∈ l) : a = b := by
  match l with
  | [] => cases ha
  | [x] =>
    rw [List.mem_singleton] at ha hb
    rw [ha, hb]
  | x :: y :: rest => simp at h

theorem countP_le_one_unique {α : Type _} {p : α → Bool} {l : List α} {a b : α}
    (h : l.countP p ≤ 1) (ha : a ∈ l) (hpa : p a = true)
    (hb : b ∈ l) (hpb : p b = true) : a = b := by
  have ha' : a ∈ l.filter p := List.mem_filter.mpr ⟨ha, hpa⟩
  have hb' : b ∈ l.filter p := List.mem_filter.mpr ⟨hb, hpb⟩
  have hl : (l.filter p).length ≤ 1 := by
    rw [← List.countP_eq_length_filter]; exact h
  exact eq_of_mem_of_length_le_one hl ha' hb'

/-! ## FCM aggregation lemmas -/

/-- Characterisation of the settled per-token fold of the FCM batch loop:
delivered = successful tokens, failed = unsuccessful tokens, results in
token order, calls = per-token HTTP calls, invalid = failed tokens with a
permanent-token error code. -/
theorem fcmFold_spec (st : FCMState) (cfg : FCMConfig)
    (payload : PushNotificationPayload) :
    ∀ (ts : List String) (acc : Agg),
      (ts.foldl (fcmTokenStep st cfg payload) acc).delivered =
        acc.delivered +
          ts.countP (fun t => (fcmProcessToken st cfg payload t).1.success) ∧
      (ts.foldl (fcmTokenStep st cfg payload) acc).failed =
        acc.failed +
          ts.countP (fun t => !(fcmProcessToken st cfg payload t).1.success) ∧
      (ts.foldl (fcmTokenStep st cfg payload) acc).results =
        acc.results ++ ts.map (fun t => (fcmProcessToken st cfg payload t).1) ∧
      (ts.foldl (fcmTokenStep st cfg payload) acc).calls =
        acc.calls + (ts.map (fun t => (fcmProcessToken st cfg payload t).2)).sum ∧
      (ts.foldl (fcmTokenStep st cfg payload) acc).invalid =
        acc.invalid ++ ts.filter
          (fun t => !(fcmProcessToken st cfg payload t).1.success &&
            fcmTokenIsInvalid (fcmProcessToken st cfg payload t).1) := by
  intro ts
  induction ts with
  | nil =>
    intro acc
    simp
  | cons t ts ih =>
    intro acc
    obtain ⟨ih1, ih2, ih3, ih4, ih5⟩ := ih (fcmTokenStep st cfg payload acc t)
    simp only [List.foldl_cons]
    refine ⟨?_, ?_, ?_, ?_, ?_⟩
    · rw [ih1, List.countP_cons]
      simp only [fcmTokenStep]
      by_cases hs : (fcmProcessToken st cfg payload t).1.success = true
      · simp [hs]; omega
      · simp at hs
        simp [hs]
    · rw [ih2, List.countP_cons]
      simp only [fcmTokenStep]
      by_cases hs : (fcmProcessToken st cfg payload t).1.success = true
      · simp [hs]
      · simp at hs
        simp [hs]; omega
    · rw [ih3]
      simp only [fcmTokenStep, List.map_cons]
      simp [List.append_assoc]
    · rw [ih4]
      simp only [fcmTokenStep, List.map_cons, List.sum_cons]
      omega
    · rw [ih5]
      simp only [fcmTokenStep, List.filter_cons]
      by_cases hc : (!(fcmProcessToken st cfg payload t).1.success &&
          fcmTokenIsInvalid (fcmProcessToken st cfg payload t).1) = true
      · simp [hc, List.append_assoc]
      · simp only [Bool.not_eq_true] at hc
        simp [hc]

/-- For a configured FCM state (`config` present, endpoint initialised) and
non-empty token list, `sendToTokens` is the per-token aggregation over the
whole list — chunking at 500 does not change the settled outcome, only the
grouping of the loop. -/
theorem fcmSendToTokens_spec (st : FCMState) (cfg : FCMConfig)
    (hc : st.config = some cfg) (he : st.endpointPresent = true)
    (tokens : List String) (payload : PushNotificationPayload)
    (ht : tokens ≠ []) :
    FCMService.sendToTokens st tokens payload =
      { result := { deliveredTo :=
                      tokens.countP
                        (fun t => (fcmProcessToken st cfg payload t).1.success)
                    failedCount :=
                      tokens.countP
                        (fun t => !(fcmProcessToken st cfg payload t).1.success)
                    totalDevices := tokens.length
                    invalidTokens :=
                      tokens.filter
                        (fun t => !(fcmProcessToken st cfg payload t).1.success &&
                          fcmTokenIsInvalid (fcmProcessToken st cfg payload t).1)
                    results :=
                      tokens.map (fun t => (fcmProcessToken st cfg payload t).1) }
        providerCalls :=
          (tokens.map (fun t => (fcmProcessToken st cfg payload t).2)).sum } := by
  have h0 : (tokens.length == 0) = false := by
    simp [List.length_eq_zero]
    exact ht
  have hfold :
      (chunkList 500 tokens).foldl (fcmChunkStep st cfg payload)
          { delivered := 0, failed := 0, invalid := [], results := [], calls := 0 } =
        tokens.foldl (fcmTokenStep st cfg payload)
          { delivered := 0, failed := 0, invalid := [], results := [], calls := 0 } := by
    have : fcmChunkStep st cfg payload =
        fun a b => b.foldl (fcmTokenStep st cfg payload) a := by
      funext a b
      rfl
    rw [this, foldl_chunks, chunkList_flatten 500 (by omega)]
  obtain ⟨h1, h2, h3, h4, h5⟩ := fcmFold_spec st cfg payload tokens
    { delivered := 0, failed := 0, invalid := [], results := [], calls := 0 }
  simp only [FCMService.sendToTokens, hc, he, h0, Bool.not_true, Bool.false_or,
    Bool.or_self, if_neg]
  rw [hfold]
  simp only [Bool.false_eq_true, if_false, ProviderOutcome.mk.injEq,
    BatchPushNotificationResult.mk.injEq]
  refine ⟨⟨?_, ?_, trivial, ?_, ?_⟩, ?_⟩
  · rw [h1]; simp
  · rw [h2]; simp
  · rw [h5]; simp
  · rw [h3]; simp
  · rw [h4]; simp

/-! ## APNs aggregation lemmas -/

theorem apnsChunkStep_calls
    (send : APNsNotification → List String → Except String APNsResponse)
    (notif : APNsNotification) (acc : Agg) (batch : List String) :
    (apnsChunkStep send notif acc batch).calls = acc.calls + 1 := by
  cases h : send notif batch <;> simp [apnsChunkStep, h]

theorem apnsFold_calls
    (send : APNsNotification → List String → Except String APNsResponse)
    (notif : APNsNotification) :
    ∀ (cs : List (List String)) (acc : Agg),
      (cs.foldl (apnsChunkStep send notif) acc).calls = acc.calls + cs.length := by
  intro cs
  induction cs with
  | nil => intro acc; simp
  | cons c cs ih =>
    intro acc
    simp only [List.foldl_cons, List.length_cons]
    rw [ih, apnsChunkStep_calls]
    omega

theorem apnsChunkStep_sum
    (send : APNsNotification → List String → Except String APNsResponse)
    (notif : APNsNotification)
    (hpart : ∀ b r, send notif b = .ok r →
      r.sent.length + r.failed.length = b.length)
    (acc : Agg) (batch : List String) :
    (apnsChunkStep send notif acc batch).delivered +
        (apnsChunkStep send notif acc batch).failed =
      acc.delivered + acc.failed + batch.length := by
  cases h : send notif batch with
  | ok r =>
    have hr := hpart batch r h
    simp only [apnsChunkStep, h]
    omega
  | error msg =>
    simp only [apnsChunkStep, h]
    omega

theorem apnsFold_sum
    (send : APNsNotification → List String → Except String APNsResponse)
    (notif : APNsNotification)
    (hpart : ∀ b r, send notif b = .ok r →
      r.sent.length + r.failed.length = b.length) :
    ∀ (cs : List (List String)) (acc : Agg),
      (cs.foldl (apnsChunkStep send notif) acc).delivered +
          (cs.foldl (apnsChunkStep send notif) acc).failed =
        acc.delivered + acc.failed + (cs.map List.length).sum := by
  intro cs
  induction cs with
  | nil => intro acc; simp
  | cons c cs ih =>
    intro acc
    simp only [List.foldl_cons, List.map_cons, List.sum_cons]
    rw [ih]
    have := apnsChunkStep_sum send notif hpart acc c
    omega

/-- For an APNs state with provider and configuration present,
`sendToTokens` issues exactly `ceil(N / 500)` provider calls. -/
theorem apnsSendToTokens_calls (st : APNsState) (cfg : APNsConfig)
    (hp : st.providerPresent = true) (hc : st.config = some cfg)
    (tokens : List String) (payload : PushNotificationPayload) :
    (APNsService.sendToTokens st tokens payload).providerCalls =
      (tokens.length + 500 - 1) / 500 := by
  by_cases htok : tokens = []
  · subst htok
    simp [APNsService.sendToTokens]
  · have h0 : (tokens.length == 0) = false := by
      simp [List.length_eq_zero]
      exact htok
    simp only [APNsService.sendToTokens, hp, h0, Bool.not_true, Bool.false_or,
      Bool.false_eq_true, if_false, hc]
    rw [apnsFold_calls]
    rw [chunkList_length 500 (by omega)]
    simp

/-- Whenever every resolved APNs chunk response partitions its chunk,
`sendToTokens` satisfies `deliveredTo + failedCount = N` — in every
configuration state. -/
theorem apnsSendToTokens_sum (st : APNsState)
    (hpart : ∀ notif b r, st.send notif b = .ok r →
      r.sent.length + r.failed.length = b.length)
    (tokens : List String) (payload : PushNotificationPayload) :
    (APNsService.sendToTokens st tokens payload).result.deliveredTo +
      (APNsService.sendToTokens st tokens payload).result.failedCount =
      tokens.length := by
  by_cases hp : st.providerPresent = true
  · by_cases htok : tokens = []
    · subst htok
      simp [APNsService.sendToTokens, apnsNotConfiguredResult]
    · have h0 : (tokens.length == 0) = false := by
        simp [List.length_eq_zero]
        exact htok
      cases hc : st.config with
      | none =>
        simp [APNsService.sendToTokens, hp, h0, hc, apnsNotConfiguredResult]
      | some cfg =>
        simp only [APNsService.sendToTokens, hp, h0, Bool.not_true,
          Bool.false_or, Bool.false_eq_true, if_false, hc]
        have hsum : ((chunkList 500 tokens).map List.length).sum = tokens.length := by
          rw [← List.length_flatten, chunkList_flatten 500 (by omega)]
        have := apnsFold_sum st.send (buildAPNsNotification cfg payload)
          (hpart (buildAPNsNotification cfg payload)) (chunkList 500 tokens)
          { delivered := 0, failed := 0, invalid := [], results := [], calls := 0 }
        simp only at this
        rw [hsum] at this
        simpa using this
  · have hp' : st.providerPresent = false := by
      cases h : st.providerPresent
      · rfl
      · exact absurd h hp
    simp [APNsService.sendToTokens, hp', apnsNotConfiguredResult]

/-! ## Deduplication lemmas -/

theorem dedupStep_find? (acc : List DeviceRef) (d : DeviceRef) (tok : String) :
    (dedupStep acc d).find? (fun e => e.token == tok) =
      ((acc.find? (fun e => e.token == tok)).or
        ([d].find? (fun e => e.token == tok))) := by
  unfold dedupStep
  by_cases hany : (acc.any fun e => e.token == d.token) = true
  · rw [if_pos hany]
    by_cases htok : d.token = tok
    · obtain ⟨e, he, hpe⟩ := List.any_eq_true.mp hany
      have hsome : (acc.find? (fun e => e.token == tok)).isSome := by
        rw [List.find?_isSome]
        exact ⟨e, he, htok ▸ hpe⟩
      obtain ⟨x, hx⟩ := Option.isSome_iff_exists.mp hsome
      rw [hx]
      rfl
    · have hnone : ([d].find? (fun e => e.token == tok)) = none := by
        rw [List.find?_eq_none]
        intro x hmem
        rw [List.mem_singleton] at hmem
        subst hmem
        simp [htok]
      rw [hnone, Option.or_none]
  · rw [if_neg hany, List.find?_append]

theorem dedupFold_find? (tok : String) :
    ∀ (ds acc : List DeviceRef),
      ((ds.foldl dedupStep acc).find? (fun e => e.token == tok)) =
        ((acc.find? (fun e => e.token == tok)).or
          (ds.find? (fun e => e.token == tok))) := by
  intro ds
  induction ds with
  | nil => intro acc; simp
  | cons d ds ih =>
    intro acc
    simp only [List.foldl_cons]
    rw [ih, dedupStep_find?, Option.or_assoc]
    congr 1
    rw [← List.find?_append, List.singleton_append]

/-- First occurrence wins: for every token, the entry the deduplicated list
retains is exactly the first entry of the input with that token. -/
theorem dedupByToken_find? (ds : List DeviceRef) (tok : String) :
    (dedupByToken ds).find? (fun e => e.token == tok) =
      ds.find? (fun e => e.token == tok) := by
  unfold dedupByToken
  rw [dedupFold_find?]
  simp

theorem dedupStep_tokens_nodup {acc : List DeviceRef} {d : DeviceRef}
    (h : (acc.map DeviceRef.token).Nodup) :
    ((dedupStep acc d).map DeviceRef.token).Nodup := by
  unfold dedupStep
  by_cases hany : (acc.any fun e => e.token == d.token) = true
  · rw [if_pos hany]
    exact h
  · rw [if_neg hany, List.map_append, List.nodup_append]
    refine ⟨h, List.nodup_singleton _, ?_⟩
    intro x hx hx'
    simp only [List.map_cons, List.map_nil, List.mem_singleton] at hx'
    subst hx'
    obtain ⟨e, he, hte⟩ := List.mem_map.mp hx
    exact hany (List.any_eq_true.mpr ⟨e, he, by simp [hte]⟩)

theorem dedupFold_tokens_nodup :
    ∀ (ds acc : List DeviceRef), (acc.map DeviceRef.token).Nodup →
      (((ds.foldl dedupStep acc).map DeviceRef.token)).Nodup := by
  intro ds
  induction ds with
  | nil => intro acc h; exact h
  | cons d ds ih =>
    intro acc h
    exact ih _ (dedupStep_tokens_nodup h)

/-- No token appears twice after the `Map`-based deduplication. -/
theorem dedupByToken_tokens_nodup (ds : List DeviceRef) :
    ((dedupByToken ds).map DeviceRef.token).Nodup :=
  dedupFold_tokens_nodup ds [] (by simp)

/-- Deduplication never drops a token: every input token still appears. -/
theorem dedupByToken_mem_token {ds : List DeviceRef} {tok : String}
    (h : tok ∈ ds.map DeviceRef.token) :
    tok ∈ (dedupByToken ds).map DeviceRef.token := by
  obtain ⟨e, he, hte⟩ := List.mem_map.mp h
  have hsome : (ds.find? (fun x => x.token == tok)).isSome := by
    rw [List.find?_isSome]
    exact ⟨e, he, by simp [hte]⟩
  rw [← dedupByToken_find?] at hsome
  obtain ⟨x, hx⟩ := Option.isSome_iff_exists.mp hsome
  have hxm := List.mem_of_find?_eq_some hx
  have hxp := List.find?_some hx
  exact List.mem_map.mpr ⟨x, hxm, by simpa using hxp⟩

/-- The first occurrence of a token is an element of the deduplicated
list. -/
theorem dedupByToken_mem_of_find? {ds : List DeviceRef} {e : DeviceRef}
    (h : ds.find? (fun x => x.token == e.token) = some e) :
    e ∈ dedupByToken ds := by
  have hd := dedupByToken_find? ds e.token
  rw [h] at hd
  exact List.mem_of_find?_eq_some hd

/-- When every row sharing `d`'s token resolves to platform `android`
(`d.platform || 'android'`), the first occurrence of that token in the
mapped device list is the android entry. -/
theorem find?_toDeviceRef_android {rows : List DeviceRow} {d : DeviceRow}
    (hmem : d ∈ rows)
    (hall : ∀ r ∈ rows, r.token = d.token →
      platformOrAndroid r.platform = "android") :
    (rows.map toDeviceRef).find? (fun e => e.token == d.token) =
      some { token := d.token, platform := "android" } := by
  have hsome : ((rows.map toDeviceRef).find?
      (fun e => e.token == d.token)).isSome := by
    rw [List.find?_isSome]
    exact ⟨toDeviceRef d, List.mem_map.mpr ⟨d, hmem, rfl⟩, by simp [toDeviceRef]⟩
  obtain ⟨e, he⟩ := Option.isSome_iff_exists.mp hsome
  have hep := List.find?_some he
  have hem := List.mem_of_find?_eq_some he
  obtain ⟨r0, hr0, hr0e⟩ := List.mem_map.mp hem
  have htok : e.token = d.token := by simpa using hep
  have hr0tok : r0.token = d.token := by
    rw [← hr0e] at htok
    exact htok
  have hand := hall r0 hr0 hr0tok
  rw [he, ← hr0e]
  show some (toDeviceRef r0) = _
  simp [toDeviceRef, hr0tok, hand]

/-! ## Router branch lemmas -/

theorem beq_string_false {a b : String} (h : a ≠ b) : (a == b) = false :=
  beq_eq_false_iff_ne.mpr h

theorem length_beq_zero_false {α : Type _} {l : List α} (h : l ≠ []) :
    (l.length == 0) = false := by
  simp [List.length_eq_zero]
  exact h

theorem routerSendToTokens_ios_not_configured {deps : RouterDeps}
    {tokens : List String} {payload : PushNotificationPayload}
    (ht : tokens ≠ []) (h : deps.apnsIsConfigured = false) :
    PushNotificationService.sendToTokens deps tokens "ios" payload =
      { result := createEmptyResult tokens, apnsCalls := 0, fcmCalls := 0 } := by
  simp [PushNotificationService.sendToTokens, length_beq_zero_false ht, h]

theorem routerSendToTokens_ios_configured {deps : RouterDeps}
    {tokens : List String} {payload : PushNotificationPayload}
    (ht : tokens ≠ []) (h : deps.apnsIsConfigured = true) :
    PushNotificationService.sendToTokens deps tokens "ios" payload =
      match deps.apnsSend tokens payload with
      | .ok r => { result := r, apnsCalls := 1, fcmCalls := 0 }
      | .error msg =>
        { result := sendErrorResult tokens msg, apnsCalls := 1, fcmCalls := 0 } := by
  simp only [PushNotificationService.sendToTokens, length_beq_zero_false ht, h,
    Bool.false_eq_true, if_false, beq_self_eq_true, if_true, Bool.not_true]

theorem routerSendToTokens_android_configured {deps : RouterDeps}
    {tokens : List String} {payload : PushNotificationPayload}
    (ht : tokens ≠ []) (h : deps.fcmIsConfigured = true) :
    PushNotificationService.sendToTokens deps tokens "android" payload =
      match deps.fcmSend tokens payload with
      | .ok r => { result := r, apnsCalls := 0, fcmCalls := 1 }
      | .error msg =>
        { result := sendErrorResult tokens msg, apnsCalls := 0, fcmCalls := 1 } := by
  have hia : (("android" : String) == "ios") = false := by decide
  simp only [PushNotificationService.sendToTokens, length_beq_zero_false ht, h,
    hia, Bool.false_eq_true, if_false, beq_self_eq_true, if_true, Bool.not_true]

theorem routerSendToTokens_other {deps : RouterDeps} {tokens : List String}
    {payload : PushNotificationPayload} {platform : String}
    (ht : tokens ≠ []) (h1 : platform ≠ "ios") (h2 : platform ≠ "android") :
    PushNotificationService.sendToTokens deps tokens platform payload =
      { result := createEmptyResult tokens, apnsCalls := 0, fcmCalls := 0 } := by
  simp only [PushNotificationService.sendToTokens, length_beq_zero_false ht,
    beq_string_false h1, beq_string_false h2, Bool.false_eq_true, if_false]

/-! ## Registration lemmas -/

/-- Effect of one `registerToken` call on a database state satisfying the
schema invariants (unique ids below `nextId`, unique `(userId, token)`
index): afterwards exactly one matching row exists, the invariants are
preserved, every matching row carries the new `lastActiveAt`, and no new
row is inserted when one already existed. -/
theorem registerToken_step (db : DeviceDB) (u t : String) (p dep : Option String)
    (now : Nat)
    (hid : (db.rows.map DeviceRow.id).Nodup)
    (hfresh : ∀ r ∈ db.rows, r.id < db.nextId)
    (hpair : countUserToken db u t ≤ 1) :
    countUserToken (NotificationService.registerToken db u t p dep now) u t = 1 ∧
    (((NotificationService.registerToken db u t p dep now).rows.map
      DeviceRow.id).Nodup) ∧
    (∀ r ∈ (NotificationService.registerToken db u t p dep now).rows,
      r.id < (NotificationService.registerToken db u t p dep now).nextId) ∧
    (∀ r ∈ (NotificationService.registerToken db u t p dep now).rows,
      matchesUserToken u t r = true → r.lastActiveAt = now) ∧
    (findOneByUserToken db u t ≠ none →
      (NotificationService.registerToken db u t p dep now).rows.length =
        db.rows.length) := by
  cases hfind : findOneByUserToken db u t with
  | some e =>
    have he_mem : e ∈ db.rows := List.mem_of_find?_eq_some hfind
    have he_p : matchesUserToken u t e = true := List.find?_some hfind
    have hdb' : NotificationService.registerToken db u t p dep now =
        { db with rows := db.rows.map fun r =>
            if r.id == e.id then
              { r with lastActiveAt := now, platform := p, departmentId := dep }
            else r } := by
      simp only [NotificationService.registerToken, hfind]
    rw [hdb']
    have hg_match : ∀ r : DeviceRow,
        matchesUserToken u t
          (if r.id == e.id then
            { r with lastActiveAt := now, platform := p, departmentId := dep }
          else r) = matchesUserToken u t r := by
      intro r
      by_cases hcase : (r.id == e.id) = true
      · rw [if_pos hcase]
        rfl
      · rw [if_neg hcase]
    have hg_id : ∀ r : DeviceRow,
        DeviceRow.id
          (if r.id == e.id then
            { r with lastActiveAt := now, platform := p, departmentId := dep }
          else r) = r.id := by
      intro r
      by_cases hcase : (r.id == e.id) = true
      · rw [if_pos hcase]
      · rw [if_neg hcase]
    have hcount : countUserToken
        { db with rows := db.rows.map fun r =>
            if r.id == e.id then
              { r with lastActiveAt := now, platform := p, departmentId := dep }
            else r } u t = countUserToken db u t := by
      simp only [countUserToken, List.countP_map]
      congr 1
      funext r
      exact hg_match r
    have hcount1 : countUserToken db u t = 1 := by
      have hpos : 0 < countUserToken db u t := by
        rw [countUserToken, List.countP_pos_iff]
        exact ⟨e, he_mem, he_p⟩
      omega
    have hids : (List.map DeviceRow.id (db.rows.map fun r =>
        if r.id == e.id then
          { r with lastActiveAt := now, platform := p, departmentId := dep }
        else r)) = db.rows.map DeviceRow.id := by
      rw [List.map_map]
      congr 1
      funext r
      exact hg_id r
    refine ⟨by rw [hcount, hcount1], by rw [hids]; exact hid, ?_, ?_, ?_⟩
    · intro r hr
      simp only [List.mem_map] at hr
      obtain ⟨r0, hr0, hr0eq⟩ := hr
      have : r.id = r0.id := by rw [← hr0eq]; exact hg_id r0
      rw [this]
      exact hfresh r0 hr0
    · intro r hr hrm
      simp only [List.mem_map] at hr
      obtain ⟨r0, hr0, hr0eq⟩ := hr
      by_cases hcase : (r0.id == e.id) = true
      · rw [if_pos hcase] at hr0eq
        rw [← hr0eq]
      · rw [if_neg hcase] at hr0eq
        subst hr0eq
        have : r0 = e := countP_le_one_unique hpair hr0 hrm he_mem he_p
        rw [this] at hcase
        simp at hcase
    · intro _
      simp
  | none =>
    have hnone : ∀ r ∈ db.rows, ¬ matchesUserToken u t r = true :=
      List.find?_eq_none.mp hfind
    have hdb' : NotificationService.registerToken db u t p dep now =
        { rows := db.rows ++
            [{ id := db.nextId, userId := u, token := t, platform := p,
               departmentId := dep, lastActiveAt := now }]
          nextId := db.nextId + 1 } := by
      simp only [NotificationService.registerToken, hfind]
    rw [hdb']
    have hfreshmatch : matchesUserToken u t
        { id := db.nextId, userId := u, token := t, platform := p,
          departmentId := dep, lastActiveAt := now } = true := by
      simp [matchesUserToken]
    refine ⟨?_, ?_, ?_, ?_, ?_⟩
    · simp only [countUserToken, List.countP_append, List.countP_singleton,
        hfreshmatch, if_true]
      have : db.rows.countP (matchesUserToken u t) = 0 :=
        List.countP_eq_zero.mpr hnone
      rw [this]
    · rw [List.map_append, List.nodup_append]
      refine ⟨hid, by simp, ?_⟩
      intro x hx hx'
      simp only [List.map_cons, List.map_nil, List.mem_singleton] at hx'
      obtain ⟨r, hr, hrid⟩ := List.mem_map.mp hx
      have := hfresh r hr
      omega
    · intro r hr
      rw [List.mem_append] at hr
      simp only
      rcases hr with hr | hr
      · have := hfresh r hr
        omega
      · rw [List.mem_singleton] at hr
        subst hr
        simp only
        omega
    · intro r hr hrm
      rw [List.mem_append] at hr
      rcases hr with hr | hr
      · exact absurd hrm (hnone r hr)
      · rw [List.mem_singleton] at hr
        subst hr
        rfl
    · intro hcontra
      exact absurd rfl hcontra

/-! ## Concrete fixtures for closed theorems -/

def samplePayload : PushNotificationPayload :=
  { title := "Title", body := "Body" }

/-- Router dependencies with both providers unconfigured. -/
def noProviderDeps : RouterDeps :=
  { apnsIsConfigured := false
    fcmIsConfigured := false
    apnsSend := fun _ _ => .error "unreachable"
    fcmSend := fun _ _ => .error "unreachable" }

/-- APNs client state with neither provider object nor configuration. -/
def apnsUnconfigured : APNsState :=
  { providerPresent := false
    config := none
    send := fun _ _ => .error "unreachable" }

/-- FCM client state with no configuration. -/
def fcmUnconfigured : FCMState :=
  { config := none
    endpointPresent := false
    authClientPresent := false
    env := { accessToken := .ok none
             postV1 := fun _ _ => .error {}
             postLegacy := fun _ _ => .error {} } }

/-- Legacy-mode FCM configuration. -/
def fcmLegacyConfig : FCMConfig :=
  { projectId := "", privateKey := "", clientEmail := ""
    useV1API := false, serverKey := some "server-key" }

/-- FCM environment whose endpoints accept every message. -/
def fcmEnvAllOk : FCMEnv :=
  { accessToken := .ok (some "access")
    postV1 := fun _ _ => .ok { name := some "projects/p/messages/1" }
    postLegacy := fun _ _ => .ok { success := some 1, results := none } }

/-- Configured legacy-mode FCM client state over `fcmEnvAllOk`. -/
def fcmLegacyAllOk : FCMState :=
  { config := some fcmLegacyConfig
    endpointPresent := true
    authClientPresent := false
    env := fcmEnvAllOk }

/-! ## Claim theorems -/

/-- **C1** (code bug at `sendToDevices`): on a device list containing a
`web` device the returned batch violates the spec invariant
`deliveredTo + failedCount == totalDevices` — `sendToDevices` counts every
device in `totalDevices` but partitions only the `ios` and `android`
groups, so a `web` device contributes to neither counter: for the single
device `{token := "t1", platform := "web"}` the sums are 0 + 0 against
`totalDevices = 1`.  (The router's `sendToTokens` itself handles `web` by
failing every token, so the invariant is the evident intent.) -/
theorem C1_sendToDevices_web_breaks_invariant :
    (PushNotificationService.sendToDevices noProviderDeps
        [{ token := "t1", platform := "web" }] samplePayload).result.deliveredTo +
      (PushNotificationService.sendToDevices noProviderDeps
        [{ token := "t1", platform := "web" }] samplePayload).result.failedCount
      = 0 ∧
    (PushNotificationService.sendToDevices noProviderDeps
        [{ token := "t1", platform := "web" }]
        samplePayload).result.totalDevices = 1 := by
  decide

/-- **C7**: for every non-empty token list and every platform other than
`ios` and `android`, the router's `sendToTokens` marks every token failed
with error code `not_configured`, contacts neither provider client, and
(being a total function) never throws. -/
theorem C7_router_unsupported_platform (deps : RouterDeps)
    (tokens : List String) (platform : String)
    (payload : PushNotificationPayload) (ht : tokens ≠ [])
    (h1 : platform ≠ "ios") (h2 : platform ≠ "android") :
    (PushNotificationService.sendToTokens deps tokens platform payload).result =
      createEmptyResult tokens ∧
    (PushNotificationService.sendToTokens deps tokens platform payload).apnsCalls
      = 0 ∧
    (PushNotificationService.sendToTokens deps tokens platform payload).fcmCalls
      = 0 ∧
    ∀ r ∈ (PushNotificationService.sendToTokens deps tokens platform
        payload).result.results,
      r.success = false ∧
        r.error = some { code := "not_configured"
                         message := "Push notification service not configured" } := by
  rw [routerSendToTokens_other ht h1 h2]
  refine ⟨rfl, rfl, rfl, ?_⟩
  intro r hr
  simp only [createEmptyResult, List.mem_map] at hr
  obtain ⟨tk, _, htk⟩ := hr
  rw [← htk]
  exact ⟨rfl, rfl⟩

/-- Closed witness for the C7 theorem at platform `web`. -/
theorem C7_router_unsupported_platform_witness :
    (["tok1"] : List String) ≠ [] ∧ ("web" : String) ≠ "ios" ∧
      ("web" : String) ≠ "android" ∧
    ((PushNotificationService.sendToTokens noProviderDeps ["tok1"] "web"
        samplePayload).result = createEmptyResult ["tok1"] ∧
      (PushNotificationService.sendToTokens noProviderDeps ["tok1"] "web"
        samplePayload).apnsCalls = 0 ∧
      (PushNotificationService.sendToTokens noProviderDeps ["tok1"] "web"
        samplePayload).fcmCalls = 0 ∧
      ∀ r ∈ (PushNotificationService.sendToTokens noProviderDeps ["tok1"] "web"
          samplePayload).result.results,
        r.success = false ∧
          r.error = some { code := "not_configured"
                           message := "Push notification service not configured" }) :=
  ⟨by decide, by decide, by decide,
    C7_router_unsupported_platform noProviderDeps ["tok1"] "web" samplePayload
      (by decide) (by decide) (by decide)⟩

/-- **C9**: the router's `sendToTokens` is a total function (the model
returns a `RouterOutcome` on every input — the `try/catch` swallows provider
rejections), and when the delegated provider client throws, the result is
the all-`send_error` batch: `deliveredTo = 0`,
`failedCount = totalDevices = N`, empty `invalidTokens`, every per-token
result failed with code `send_error`. -/
theorem C9_router_catches_provider_throw (deps : RouterDeps)
    (tokens : List String) (payload : PushNotificationPayload) (msg : String)
    (ht : tokens ≠ []) :
    (deps.apnsIsConfigured = true → deps.apnsSend tokens payload = .error msg →
      PushNotificationService.sendToTokens deps tokens "ios" payload =
        { result := sendErrorResult tokens msg, apnsCalls := 1, fcmCalls := 0 }) ∧
    (deps.fcmIsConfigured = true → deps.fcmSend tokens payload = .error msg →
      PushNotificationService.sendToTokens deps tokens "android" payload =
        { result := sendErrorResult tokens msg, apnsCalls := 0, fcmCalls := 1 }) ∧
    (sendErrorResult tokens msg).deliveredTo = 0 ∧
    (sendErrorResult tokens msg).failedCount = tokens.length ∧
    (sendErrorResult tokens msg).totalDevices = tokens.length ∧
    (sendErrorResult tokens msg).invalidTokens = [] ∧
    ∀ r ∈ (sendErrorResult tokens msg).results,
      r.success = false ∧ r.error = some { code := "send_error", message := msg } := by
  refine ⟨?_, ?_, rfl, rfl, rfl, rfl, ?_⟩
  · intro hconf hsend
    rw [routerSendToTokens_ios_configured ht hconf, hsend]
  · intro hconf hsend
    rw [routerSendToTokens_android_configured ht hconf, hsend]
  · intro r hr
    simp only [sendErrorResult, List.mem_map] at hr
    obtain ⟨tk, _, htk⟩ := hr
    rw [← htk]
    exact ⟨rfl, rfl⟩

/-- Router dependencies whose provider clients always throw. -/
def throwingDeps : RouterDeps :=
  { apnsIsConfigured := true
    fcmIsConfigured := true
    apnsSend := fun _ _ => .error "boom"
    fcmSend := fun _ _ => .error "boom" }

/-- Closed witness for the C9 theorem: a throwing APNs client on one token. -/
theorem C9_router_catches_provider_throw_witness :
    (["tok1"] : List String) ≠ [] ∧
    ((throwingDeps.apnsIsConfigured = true →
        throwingDeps.apnsSend ["tok1"] samplePayload = .error "boom" →
        PushNotificationService.sendToTokens throwingDeps ["tok1"] "ios"
            samplePayload =
          { result := sendErrorResult ["tok1"] "boom", apnsCalls := 1
            fcmCalls := 0 }) ∧
      (throwingDeps.fcmIsConfigured = true →
        throwingDeps.fcmSend ["tok1"] samplePayload = .error "boom" →
        PushNotificationService.sendToTokens throwingDeps ["tok1"] "android"
            samplePayload =
          { result := sendErrorResult ["tok1"] "boom", apnsCalls := 0
            fcmCalls := 1 }) ∧
      (sendErrorResult ["tok1"] "boom").deliveredTo = 0 ∧
      (sendErrorResult ["tok1"] "boom").failedCount = (["tok1"] : List String).length ∧
      (sendErrorResult ["tok1"] "boom").totalDevices = (["tok1"] : List String).length ∧
      (sendErrorResult ["tok1"] "boom").invalidTokens = [] ∧
      ∀ r ∈ (sendErrorResult ["tok1"] "boom").results,
        r.success = false ∧
          r.error = some { code := "send_error", message := "boom" }) :=
  ⟨by decide,
    C9_router_catches_provider_throw throwingDeps ["tok1"] samplePayload "boom"
      (by decide)⟩

/-- An unconfigured APNs client returns the all-failed
`apns_not_configured` batch (message depending on which guard fired) and
makes no provider call. -/
theorem apnsSendToTokens_unconfigured (st : APNsState) (tokens : List String)
    (payload : PushNotificationPayload)
    (h : APNsService.isConfigured st = false) :
    ∃ m, APNsService.sendToTokens st tokens payload =
      { result := apnsNotConfiguredResult tokens m, providerCalls := 0 } := by
  rw [APNsService.isConfigured, Bool.and_eq_false_iff] at h
  rcases h with h | h
  · exact ⟨"APNs provider is not configured", by
      simp [APNsService.sendToTokens, h]⟩
  · have hc : st.config = none := by
      cases hc' : st.config
      · rfl
      · rw [hc'] at h
        simp at h
    by_cases htok : tokens = []
    · subst htok
      exact ⟨"APNs provider is not configured", by
        simp [APNsService.sendToTokens]⟩
    · cases hp : st.providerPresent
      · exact ⟨"APNs provider is not configured", by
          simp [APNsService.sendToTokens, hp]⟩
      · exact ⟨"APNs configuration is missing", by
          simp [APNsService.sendToTokens, hp, hc, length_beq_zero_false htok]⟩

/-- An unconfigured FCM client returns the all-failed `fcm_not_configured`
batch and makes no provider call. -/
theorem fcmSendToTokens_unconfigured (st : FCMState) (tokens : List String)
    (payload : PushNotificationPayload)
    (h : FCMService.isConfigured st = false) :
    FCMService.sendToTokens st tokens payload =
      { result := fcmNotConfiguredResult tokens, providerCalls := 0 } := by
  rw [FCMService.isConfigured, Bool.and_eq_false_iff] at h
  cases hc : st.config with
  | none => simp [FCMService.sendToTokens, hc]
  | some cfg =>
    rcases h with h | h
    · simp [FCMService.sendToTokens, hc, h]
    · rw [hc] at h
      simp at h

/-- **C5**: a provider client with `isConfigured() == false` called on any
token list of length `N` returns `deliveredTo = 0`,
`failedCount = totalDevices = N`, every per-token result failed with code
`apns_not_configured` (APNs) resp. `fcm_not_configured` (FCM), and issues
zero provider/HTTP calls. -/
theorem C5_unconfigured_provider_all_failed (apns : APNsState)
    (fcm : FCMState) (tokens : List String)
    (payload : PushNotificationPayload)
    (hA : APNsService.isConfigured apns = false)
    (hF : FCMService.isConfigured fcm = false) :
    ((APNsService.sendToTokens apns tokens payload).result.deliveredTo = 0 ∧
     (APNsService.sendToTokens apns tokens payload).result.failedCount =
       tokens.length ∧
     (APNsService.sendToTokens apns tokens payload).result.totalDevices =
       tokens.length ∧
     (APNsService.sendToTokens apns tokens payload).providerCalls = 0 ∧
     ∀ r ∈ (APNsService.sendToTokens apns tokens payload).result.results,
       r.success = false ∧
         ∃ m, r.error = some { code := "apns_not_configured", message := m }) ∧
    ((FCMService.sendToTokens fcm tokens payload).result.deliveredTo = 0 ∧
     (FCMService.sendToTokens fcm tokens payload).result.failedCount =
       tokens.length ∧
     (FCMService.sendToTokens fcm tokens payload).result.totalDevices =
       tokens.length ∧
     (FCMService.sendToTokens fcm tokens payload).providerCalls = 0 ∧
     ∀ r ∈ (FCMService.sendToTokens fcm tokens payload).result.results,
       r.success = false ∧
         r.error = some { code := "fcm_not_configured"
                          message := "FCM provider is not configured" }) := by
  obtain ⟨m, hm⟩ := apnsSendToTokens_unconfigured apns tokens payload hA
  have hf := fcmSendToTokens_unconfigured fcm tokens payload hF
  rw [hm, hf]
  refine ⟨⟨rfl, rfl, rfl, rfl, ?_⟩, rfl, rfl, rfl, rfl, ?_⟩
  · intro r hr
    simp only [apnsNotConfiguredResult, List.mem_map] at hr
    obtain ⟨tk, _, htk⟩ := hr
    rw [← htk]
    exact ⟨rfl, m, rfl⟩
  · intro r hr
    simp only [fcmNotConfiguredResult, List.mem_map] at hr
    obtain ⟨tk, _, htk⟩ := hr
    rw [← htk]
    exact ⟨rfl, rfl⟩

/-- Closed witness for the C5 theorem: both clients unconfigured, 5 tokens. -/
theorem C5_unconfigured_provider_all_failed_witness :
    APNsService.isConfigured apnsUnconfigured = false ∧
    FCMService.isConfigured fcmUnconfigured = false ∧
    (APNsService.sendToTokens apnsUnconfigured ["t1", "t2", "t3", "t4", "t5"]
        samplePayload).result.failedCount = 5 ∧
    (FCMService.sendToTokens fcmUnconfigured ["t1", "t2", "t3", "t4", "t5"]
        samplePayload).providerCalls = 0 ∧
    (((APNsService.sendToTokens apnsUnconfigured ["t1", "t2", "t3", "t4", "t5"]
        samplePayload).result.deliveredTo = 0 ∧
      (APNsService.sendToTokens apnsUnconfigured ["t1", "t2", "t3", "t4", "t5"]
        samplePayload).result.failedCount = (["t1", "t2", "t3", "t4", "t5"] : List String).length ∧
      (APNsService.sendToTokens apnsUnconfigured ["t1", "t2", "t3", "t4", "t5"]
        samplePayload).result.totalDevices = (["t1", "t2", "t3", "t4", "t5"] : List String).length ∧
      (APNsService.sendToTokens apnsUnconfigured ["t1", "t2", "t3", "t4", "t5"]
        samplePayload).providerCalls = 0 ∧
      ∀ r ∈ (APNsService.sendToTokens apnsUnconfigured ["t1", "t2", "t3", "t4", "t5"]
          samplePayload).result.results,
        r.success = false ∧
          ∃ m, r.error = some { code := "apns_not_configured", message := m }) ∧
     ((FCMService.sendToTokens fcmUnconfigured ["t1", "t2", "t3", "t4", "t5"]
        samplePayload).result.deliveredTo = 0 ∧
      (FCMService.sendToTokens fcmUnconfigured ["t1", "t2", "t3", "t4", "t5"]
        samplePayload).result.failedCount = (["t1", "t2", "t3", "t4", "t5"] : List String).length ∧
      (FCMService.sendToTokens fcmUnconfigured ["t1", "t2", "t3", "t4", "t5"]
        samplePayload).result.totalDevices = (["t1", "t2", "t3", "t4", "t5"] : List String).length ∧
      (FCMService.sendToTokens fcmUnconfigured ["t1", "t2", "t3", "t4", "t5"]
        samplePayload).providerCalls = 0 ∧
      ∀ r ∈ (FCMService.sendToTokens fcmUnconfigured ["t1", "t2", "t3", "t4", "t5"]
          samplePayload).result.results,
        r.success = false ∧
          r.error = some { code := "fcm_not_configured"
                           message := "FCM provider is not configured" })) :=
  ⟨by decide, by decide, by decide, by decide,
    C5_unconfigured_provider_all_failed apnsUnconfigured fcmUnconfigured
      ["t1", "t2", "t3", "t4", "t5"] samplePayload (by decide) (by decide)⟩

theorem workerFinish_cleanupDeleteCalls
    (logOutcome : LogRecord → Except String Unit) (c : List (List String))
    (sr : LogRecord) (fr : String → LogRecord) :
    (workerFinish logOutcome c sr fr).cleanupDeleteCalls = c := by
  unfold workerFinish
  split
  · rfl
  · split <;> rfl

theorem workerFinish_indep (logOutcome : LogRecord → Except String Unit)
    (c c' : List (List String)) (sr : LogRecord) (fr : String → LogRecord) :
    (workerFinish logOutcome c sr fr).outcome =
      (workerFinish logOutcome c' sr fr).outcome ∧
    (workerFinish logOutcome c sr fr).logRecords =
      (workerFinish logOutcome c' sr fr).logRecords := by
  unfold workerFinish
  split
  · exact ⟨rfl, rfl⟩
  · split <;> exact ⟨rfl, rfl⟩

/-- **C3**: whenever a processed job collects a non-empty set of invalid
tokens, the worker invokes the Device Registry delete exactly once with
exactly those tokens, after all platform groups are processed — on every
trace, whether the job afterwards completes or re-raises a logging
exception (the group sends themselves cannot raise: the router catches
provider errors, so the only throwing step, the log write, runs after
cleanup); and the removal call never propagates a failure: the job's
outcome and log records are unchanged for any registry-delete behaviour. -/
theorem C3_worker_cleanup_runs (deps : RouterDeps) (env : WorkerEnv)
    (job : NotificationJob) (queueType : String)
    (h : (workerSendAggregate deps job).2.2 ≠ []) :
    (NotificationWorkerService.processNotificationJob deps env job
        queueType).cleanupDeleteCalls = [(workerSendAggregate deps job).2.2] ∧
    ∀ del' : List String → Except String Unit,
      (NotificationWorkerService.processNotificationJob deps
          { env with deleteByTokens := del' } job queueType).outcome =
        (NotificationWorkerService.processNotificationJob deps env job
          queueType).outcome ∧
      (NotificationWorkerService.processNotificationJob deps
          { env with deleteByTokens := del' } job queueType).logRecords =
        (NotificationWorkerService.processNotificationJob deps env job
          queueType).logRecords := by
  have hgt : (workerSendAggregate deps job).2.2.length > 0 := by
    cases hc : (workerSendAggregate deps job).2.2 with
    | nil => exact absurd hc h
    | cons x xs => simp
  have hclean : ∀ del : List String → Except String Unit,
      PushNotificationService.cleanupInvalidTokens del
          (workerSendAggregate deps job).2.2 =
        [(workerSendAggregate deps job).2.2] := by
    intro del
    unfold PushNotificationService.cleanupInvalidTokens
    rw [length_beq_zero_false h]
    simp only [Bool.false_eq_true, if_false]
    cases del (workerSendAggregate deps job).2.2 <;> rfl
  constructor
  · simp only [NotificationWorkerService.processNotificationJob]
    rw [workerFinish_cleanupDeleteCalls, if_pos hgt, hclean]
  · intro del'
    simp only [NotificationWorkerService.processNotificationJob]
    exact workerFinish_indep env.logOutcome _ _ _ _

/-- Router dependencies whose FCM client reports every token invalid. -/
def invalidTokenDeps : RouterDeps :=
  { apnsIsConfigured := false
    fcmIsConfigured := true
    apnsSend := fun _ _ => .error "unreachable"
    fcmSend := fun tokens _ => .ok
      { deliveredTo := 0, failedCount := tokens.length
        totalDevices := tokens.length
        invalidTokens := tokens
        results := tokens.map fun t =>
          { success := false, token := t
            error := some { code := "unregistered_token"
                            message := "NotRegistered" } } } }

def c3Job : NotificationJob :=
  { type := "custom", tokens := ["bad"], platform := "android"
    payload := samplePayload, departmentId := none }

def c3Env : WorkerEnv :=
  { deleteByTokens := fun _ => .ok ()
    logOutcome := fun _ => .ok () }

/-- Closed witness for the C3 theorem: one android token the FCM client
reports as unregistered. -/
theorem C3_worker_cleanup_runs_witness :
    (workerSendAggregate invalidTokenDeps c3Job).2.2 ≠ [] ∧
    ((NotificationWorkerService.processNotificationJob invalidTokenDeps c3Env
        c3Job "custom").cleanupDeleteCalls =
      [(workerSendAggregate invalidTokenDeps c3Job).2.2] ∧
    ∀ del' : List String → Except String Unit,
      (NotificationWorkerService.processNotificationJob invalidTokenDeps
          { c3Env with deleteByTokens := del' } c3Job "custom").outcome =
        (NotificationWorkerService.processNotificationJob invalidTokenDeps c3Env
          c3Job "custom").outcome ∧
      (NotificationWorkerService.processNotificationJob invalidTokenDeps
          { c3Env with deleteByTokens := del' } c3Job "custom").logRecords =
        (NotificationWorkerService.processNotificationJob invalidTokenDeps c3Env
          c3Job "custom").logRecords) :=
  ⟨by decide,
    C3_worker_cleanup_runs invalidTokenDeps c3Env c3Job "custom" (by decide)⟩

/-- Two users registered with the same token (allowed by the
`(userId, token)` unique index). -/
def c4Repo : List DeviceRow :=
  [{ id := 0, userId := "u1", token := "tok", platform := some "android"
     departmentId := some "d1", lastActiveAt := 0 },
   { id := 1, userId := "u2", token := "tok", platform := some "android"
     departmentId := some "d1", lastActiveAt := 0 }]

/-- **C4** counterexample: `sendToUsers` does not deduplicate by token —
with two users registered under the same token the delegated device list
contains that token twice, and the batch handed to `sendToDevices` reports
`totalDevices = 2` (deduplication would leave 1).  (`sendToDepartment`
shares the same shape; only `sendToDepartments` and `sendToAll`
deduplicate.) -/
theorem C4_sendToUsers_no_dedup_counterexample :
    ((sendToUsersDeviceList c4Repo ["u1", "u2"]).map DeviceRef.token).count
        "tok" = 2 ∧
    (PushNotificationService.sendToUsers noProviderDeps c4Repo ["u1", "u2"]
        samplePayload).result.totalDevices = 2 := by
  decide

/-- **C4** (amended): only `sendToDepartments` and `sendToAll` deduplicate
their resolved device list by token — no token appears twice in those
delegated lists and the retained entry is the first occurrence of its
token; `sendToUsers` and `sendToDepartment` delegate the resolved list
unchanged. -/
theorem C4_amended_dedup_departments_all (repo : List DeviceRow)
    (depts : List String) (tok : String) :
    ((sendToDepartmentsDeviceList repo depts).map DeviceRef.token).Nodup ∧
    ((sendToAllDeviceList repo).map DeviceRef.token).Nodup ∧
    (sendToDepartmentsDeviceList repo depts).find? (fun e => e.token == tok) =
      ((findByDepartments repo depts).map toDeviceRef).find?
        (fun e => e.token == tok) ∧
    (sendToAllDeviceList repo).find? (fun e => e.token == tok) =
      (repo.map toDeviceRef).find? (fun e => e.token == tok) :=
  ⟨dedupByToken_tokens_nodup _, dedupByToken_tokens_nodup _,
    dedupByToken_find? _ tok, dedupByToken_find? _ tok⟩

/-- An ios row and a null-platform row registered under the same token
(distinct users, so the `(userId, token)` unique index allows it). -/
def c10IosRow : DeviceRow :=
  { id := 1, userId := "u1", token := "t", platform := some "ios"
    departmentId := some "d1", lastActiveAt := 0 }

def c10NullRow : DeviceRow :=
  { id := 2, userId := "u2", token := "t", platform := none
    departmentId := some "d1", lastActiveAt := 0 }

/-- **C10** counterexample: in `sendToDepartments`/`sendToAll` a device
with a null stored platform is not always routed to the FCM client — when
an earlier row with the same token carries platform `ios`, the
first-occurrence deduplication keeps the ios entry, the android group is
empty, and the shared token is sent through the APNs route (one APNs
call, no FCM call). -/
theorem C10_dedup_ios_first_counterexample :
    c10NullRow.platform = none ∧
    sendToAllDeviceList [c10IosRow, c10NullRow] =
      [{ token := "t", platform := "ios" }] ∧
    sendToDepartmentsDeviceList [c10IosRow, c10NullRow] ["d1"] =
      [{ token := "t", platform := "ios" }] ∧
    (PushNotificationService.sendToAll throwingDeps [c10IosRow, c10NullRow]
        samplePayload).apnsCalls = 1 ∧
    (PushNotificationService.sendToAll throwingDeps [c10IosRow, c10NullRow]
        samplePayload).fcmCalls = 0 := by
  decide

/-- **C10** (amended): a device row whose stored platform is null is
treated as platform `android` wherever it is delegated.  In `sendToUsers`
and `sendToDepartment` it is always delegated as `android`, lands in the
android group of `sendToDevices`, and that group is routed to the FCM
client (one FCM call, no APNs call) whenever FCM is configured.  In
`sendToDepartments` and `sendToAll` its token always survives
deduplication (it is never dropped), and it is delegated as `android` —
hence routed to FCM — provided every resolved row sharing its token also
resolves to `android` (in particular whenever the token is unique); if an
earlier resolved row with the same token has platform `ios`, that token is
routed to the APNs client instead. -/
theorem C10_amended_null_platform_android (repo : List DeviceRow)
    (userIds : List String) (dept : String) (depts : List String)
    (d : DeviceRow) (hp : d.platform = none)
    (deps : RouterDeps) (payload : PushNotificationPayload)
    (hfcm : deps.fcmIsConfigured = true) :
    (d ∈ findByUsers repo userIds →
      ({ token := d.token, platform := "android" } : DeviceRef) ∈
        sendToUsersDeviceList repo userIds) ∧
    (d ∈ findByDepartment repo dept →
      ({ token := d.token, platform := "android" } : DeviceRef) ∈
        sendToDepartmentDeviceList repo dept) ∧
    (d ∈ findByDepartments repo depts →
      d.token ∈ (sendToDepartmentsDeviceList repo depts).map DeviceRef.token) ∧
    (d ∈ repo → d.token ∈ (sendToAllDeviceList repo).map DeviceRef.token) ∧
    (d ∈ findByDepartments repo depts →
      (∀ r ∈ findByDepartments repo depts, r.token = d.token →
        platformOrAndroid r.platform = "android") →
      ({ token := d.token, platform := "android" } : DeviceRef) ∈
        sendToDepartmentsDeviceList repo depts) ∧
    (d ∈ repo →
      (∀ r ∈ repo, r.token = d.token →
        platformOrAndroid r.platform = "android") →
      ({ token := d.token, platform := "android" } : DeviceRef) ∈
        sendToAllDeviceList repo) ∧
    (∀ dl : List DeviceRef,
      ({ token := d.token, platform := "android" } : DeviceRef) ∈ dl →
      d.token ∈
        ((dl.filter fun e => e.platform == "android").map DeviceRef.token)) ∧
    (∀ tokens : List String, tokens ≠ [] →
      (PushNotificationService.sendToTokens deps tokens "android"
        payload).fcmCalls = 1 ∧
      (PushNotificationService.sendToTokens deps tokens "android"
        payload).apnsCalls = 0) := by
  have htd : toDeviceRef d = { token := d.token, platform := "android" } := by
    simp [toDeviceRef, platformOrAndroid, hp, strOr]
  refine ⟨?_, ?_, ?_, ?_, ?_, ?_, ?_, ?_⟩
  · intro hmem
    exact List.mem_map.mpr ⟨d, hmem, htd⟩
  · intro hmem
    exact List.mem_map.mpr ⟨d, hmem, htd⟩
  · intro hmem
    apply dedupByToken_mem_token
    rw [List.map_map]
    exact List.mem_map.mpr ⟨d, hmem, by rw [Function.comp_apply, htd]⟩
  · intro hmem
    apply dedupByToken_mem_token
    rw [List.map_map]
    exact List.mem_map.mpr ⟨d, hmem, by rw [Function.comp_apply, htd]⟩
  · intro hmem hall
    exact dedupByToken_mem_of_find? (find?_toDeviceRef_android hmem hall)
  · intro hmem hall
    exact dedupByToken_mem_of_find? (find?_toDeviceRef_android hmem hall)
  · intro dl hmem
    refine List.mem_map.mpr ⟨_, List.mem_filter.mpr ⟨hmem, ?_⟩, rfl⟩
    rfl
  · intro tokens ht
    rw [routerSendToTokens_android_configured ht hfcm]
    cases deps.fcmSend tokens payload <;> exact ⟨rfl, rfl⟩

/-- A registered device whose stored platform is null. -/
def c10Row : DeviceRow :=
  { id := 0, userId := "u1", token := "tok", platform := none
    departmentId := some "d1", lastActiveAt := 0 }

/-- Closed witness for the amended C10 theorem: the null-platform row
resolved via each helper over a one-row registry, with a configured FCM
client. -/
theorem C10_amended_null_platform_android_witness :
    c10Row.platform = none ∧ throwingDeps.fcmIsConfigured = true ∧
    ((c10Row ∈ findByUsers [c10Row] ["u1"] →
      ({ token := c10Row.token, platform := "android" } : DeviceRef) ∈
        sendToUsersDeviceList [c10Row] ["u1"]) ∧
    (c10Row ∈ findByDepartment [c10Row] "d1" →
      ({ token := c10Row.token, platform := "android" } : DeviceRef) ∈
        sendToDepartmentDeviceList [c10Row] "d1") ∧
    (c10Row ∈ findByDepartments [c10Row] ["d1"] →
      c10Row.token ∈
        (sendToDepartmentsDeviceList [c10Row] ["d1"]).map DeviceRef.token) ∧
    (c10Row ∈ [c10Row] →
      c10Row.token ∈ (sendToAllDeviceList [c10Row]).map DeviceRef.token) ∧
    (c10Row ∈ findByDepartments [c10Row] ["d1"] →
      (∀ r ∈ findByDepartments [c10Row] ["d1"], r.token = c10Row.token →
        platformOrAndroid r.platform = "android") →
      ({ token := c10Row.token, platform := "android" } : DeviceRef) ∈
        sendToDepartmentsDeviceList [c10Row] ["d1"]) ∧
    (c10Row ∈ [c10Row] →
      (∀ r ∈ [c10Row], r.token = c10Row.token →
        platformOrAndroid r.platform = "android") →
      ({ token := c10Row.token, platform := "android" } : DeviceRef) ∈
        sendToAllDeviceList [c10Row]) ∧
    (∀ dl : List DeviceRef,
      ({ token := c10Row.token, platform := "android" } : DeviceRef) ∈ dl →
      c10Row.token ∈
        ((dl.filter fun e => e.platform == "android").map DeviceRef.token)) ∧
    (∀ tokens : List String, tokens ≠ [] →
      (PushNotificationService.sendToTokens throwingDeps tokens "android"
        samplePayload).fcmCalls = 1 ∧
      (PushNotificationService.sendToTokens throwingDeps tokens "android"
        samplePayload).apnsCalls = 0)) :=
  ⟨rfl, rfl,
    C10_amended_null_platform_android [c10Row] ["u1"] "d1" ["d1"] c10Row rfl
      throwingDeps samplePayload rfl⟩

theorem sum_map_eq_length_of_one {α : Type _} (f : α → Nat)
    (h : ∀ a, f a = 1) (l : List α) : (l.map f).sum = l.length := by
  induction l with
  | nil => rfl
  | cons x xs ih =>
    simp [h x, ih]
    omega

/-- `deliveredTo + failedCount = N` holds for the FCM client in every
state: each settled token contributes to exactly one counter, and the
unconfigured guard fails all `N` tokens. -/
theorem fcmSendToTokens_sum (st : FCMState) (tokens : List String)
    (payload : PushNotificationPayload) :
    (FCMService.sendToTokens st tokens payload).result.deliveredTo +
      (FCMService.sendToTokens st tokens payload).result.failedCount =
      tokens.length := by
  cases hc : st.config with
  | none => simp [FCMService.sendToTokens, hc, fcmNotConfiguredResult]
  | some cfg =>
    by_cases he : st.endpointPresent = true
    · by_cases ht : tokens = []
      · subst ht
        simp [FCMService.sendToTokens, hc, fcmNotConfiguredResult]
      · rw [fcmSendToTokens_spec st cfg hc he tokens payload ht]
        have hfun : (fun t => !(fcmProcessToken st cfg payload t).1.success) =
            (fun t =>
              decide ¬((fcmProcessToken st cfg payload t).1.success = true)) := by
          funext t
          cases h : (fcmProcessToken st cfg payload t).1.success <;> simp [h]
        have := List.length_eq_countP_add_countP
          (fun t => (fcmProcessToken st cfg payload t).1.success) tokens
        simp only
        rw [hfun]
        omega
    · have he' : st.endpointPresent = false := by
        cases h : st.endpointPresent
        · rfl
        · exact absurd h he
      simp [FCMService.sendToTokens, hc, he', fcmNotConfiguredResult]

/-- Always-successful APNs provider: every chunk resolves with all tokens
sent. -/
def apnsEchoState : APNsState :=
  { providerPresent := true
    config := some { keyId := "kid", teamId := "tid", bundleId := "bid"
                     key := "key", production := false
                     defaultTopic := some "bid" }
    send := fun _ b => .ok { sent := b, failed := [] } }

/-- **C6** counterexample: the FCM client does not issue one provider call
per chunk of 500 — it issues one HTTP call per token.  In legacy mode two
tokens produce two provider calls, while the claim predicts
`ceil(2/500) = 1`. -/
theorem C6_fcm_calls_per_token_counterexample :
    (FCMService.sendToTokens fcmLegacyAllOk ["t1", "t2"]
        samplePayload).providerCalls = 2 ∧
    ((["t1", "t2"] : List String).length + 500 - 1) / 500 = 1 ∧
    (2 : Nat) ≠ 1 := by
  decide

/-- **C6** (amended): a configured APNs client issues exactly
`ceil(N / 500)` provider calls (one per chunk) and, whenever each resolved
chunk response partitions its chunk, satisfies
`deliveredTo + failedCount = N`; the FCM client also iterates
`ceil(N / 500)` chunks and satisfies `deliveredTo + failedCount = N`
unconditionally, but issues one provider call per token — `N` calls in
legacy mode (and likewise in v1 mode when the access token resolves), not
`ceil(N / 500)`. -/
theorem C6_amended_provider_calls_and_sum (apns : APNsState)
    (cfg : APNsConfig) (hp : apns.providerPresent = true)
    (hcA : apns.config = some cfg)
    (hpart : ∀ notif b r, apns.send notif b = .ok r →
      r.sent.length + r.failed.length = b.length)
    (fcm : FCMState) (fcfg : FCMConfig) (hcF : fcm.config = some fcfg)
    (heF : fcm.endpointPresent = true) (hleg : fcfg.useV1API = false)
    (tokens : List String) (payload : PushNotificationPayload) :
    (APNsService.sendToTokens apns tokens payload).providerCalls =
      (tokens.length + 500 - 1) / 500 ∧
    (APNsService.sendToTokens apns tokens payload).result.deliveredTo +
      (APNsService.sendToTokens apns tokens payload).result.failedCount =
      tokens.length ∧
    (FCMService.sendToTokens fcm tokens payload).result.deliveredTo +
      (FCMService.sendToTokens fcm tokens payload).result.failedCount =
      tokens.length ∧
    (chunkList 500 tokens).length = (tokens.length + 500 - 1) / 500 ∧
    (FCMService.sendToTokens fcm tokens payload).providerCalls =
      tokens.length := by
  refine ⟨apnsSendToTokens_calls apns cfg hp hcA tokens payload,
    apnsSendToTokens_sum apns hpart tokens payload,
    fcmSendToTokens_sum fcm tokens payload,
    chunkList_length 500 (by omega) tokens, ?_⟩
  by_cases ht : tokens = []
  · subst ht
    simp [FCMService.sendToTokens, hcF]
  · rw [fcmSendToTokens_spec fcm fcfg hcF heF tokens payload ht]
    simp only
    apply sum_map_eq_length_of_one
    intro t
    simp only [fcmProcessToken, hleg, Bool.false_eq_true, if_false,
      FCMService.sendLegacyAPI]
    cases fcm.env.postLegacy (fcfg.serverKey.getD "")
        (buildFCMLegacyMessage payload t) with
    | ok resp =>
      by_cases hs : (resp.success == some 1) = true
      · simp [hs]
      · have hs' : (resp.success == some 1) = false := by
          cases h : resp.success == some 1
          · rfl
          · exact absurd h hs
        simp [hs']
    | error e => rfl

/-- Closed witness for the amended C6 theorem: configured APNs and legacy
FCM clients on two tokens. -/
theorem C6_amended_provider_calls_and_sum_witness :
    apnsEchoState.providerPresent = true ∧
    (∀ notif b r, apnsEchoState.send notif b = .ok r →
      r.sent.length + r.failed.length = b.length) ∧
    fcmLegacyAllOk.endpointPresent = true ∧
    fcmLegacyConfig.useV1API = false ∧
    ((APNsService.sendToTokens apnsEchoState ["x", "y"]
        samplePayload).providerCalls =
      ((["x", "y"] : List String).length + 500 - 1) / 500 ∧
    (APNsService.sendToTokens apnsEchoState ["x", "y"]
        samplePayload).result.deliveredTo +
      (APNsService.sendToTokens apnsEchoState ["x", "y"]
        samplePayload).result.failedCount =
      (["x", "y"] : List String).length ∧
    (FCMService.sendToTokens fcmLegacyAllOk ["x", "y"]
        samplePayload).result.deliveredTo +
      (FCMService.sendToTokens fcmLegacyAllOk ["x", "y"]
        samplePayload).result.failedCount =
      (["x", "y"] : List String).length ∧
    (chunkList 500 (["x", "y"] : List String)).length =
      ((["x", "y"] : List String).length + 500 - 1) / 500 ∧
    (FCMService.sendToTokens fcmLegacyAllOk ["x", "y"]
        samplePayload).providerCalls = (["x", "y"] : List String).length) :=
  ⟨rfl,
    fun notif b r h => by
      cases h
      simp,
    rfl, rfl,
    C6_amended_provider_calls_and_sum apnsEchoState _ rfl rfl
      (fun notif b r h => by
        cases h
        simp)
      fcmLegacyAllOk fcmLegacyConfig rfl rfl rfl ["x", "y"] samplePayload⟩

/-- **C2** counterexample: in the claim's scenario (FCM configured, APNs
not configured, 2 android + 1 ios devices) the ios token's per-token
result carries error code `not_configured` — the router's generic fallback
from `createEmptyResult` — not `apns_not_configured`: the router checks
`isConfigured()` and never calls the APNs client, whose
`apns_not_configured` code is unreachable on this path. -/
theorem C2_ios_code_counterexample :
    ((PushNotificationService.sendToDevices
        (depsOfServices apnsUnconfigured fcmLegacyAllOk)
        [{ token := "a1", platform := "android" },
         { token := "a2", platform := "android" },
         { token := "i1", platform := "ios" }]
        samplePayload).result.results.filter (fun r => r.token == "i1")) =
      [{ success := false, token := "i1"
         error := some { code := "not_configured"
                         message := "Push notification service not configured" } }] ∧
    ("not_configured" : String) ≠ "apns_not_configured" := by
  decide

/-- **C2** (amended): with FCM configured and APNs not configured,
`sendToDevices` on 2 android devices and 1 ios device returns
`totalDevices = 3`; the ios token's per-token result (the first in the
merged list) is failed with error code `not_configured`;
`failedCount ≥ 1`; and `deliveredTo` equals the number of successful
android sends. -/
theorem C2_amended_mixed_devices (apns : APNsState) (fcm : FCMState)
    (cfg : FCMConfig) (hA : APNsService.isConfigured apns = false)
    (hc : fcm.config = some cfg) (he : fcm.endpointPresent = true)
    (a1 a2 i1 : String) (payload : PushNotificationPayload) :
    (PushNotificationService.sendToDevices (depsOfServices apns fcm)
        [{ token := a1, platform := "android" },
         { token := a2, platform := "android" },
         { token := i1, platform := "ios" }] payload).result.totalDevices = 3 ∧
    (PushNotificationService.sendToDevices (depsOfServices apns fcm)
        [{ token := a1, platform := "android" },
         { token := a2, platform := "android" },
         { token := i1, platform := "ios" }] payload).result.results.head? =
      some { success := false, token := i1
             error := some { code := "not_configured"
                             message := "Push notification service not configured" } } ∧
    1 ≤ (PushNotificationService.sendToDevices (depsOfServices apns fcm)
        [{ token := a1, platform := "android" },
         { token := a2, platform := "android" },
         { token := i1, platform := "ios" }] payload).result.failedCount ∧
    (PushNotificationService.sendToDevices (depsOfServices apns fcm)
        [{ token := a1, platform := "android" },
         { token := a2, platform := "android" },
         { token := i1, platform := "ios" }] payload).result.deliveredTo =
      [a1, a2].countP (fun t => (fcmProcessToken fcm cfg payload t).1.success) := by
  have hdA : (depsOfServices apns fcm).apnsIsConfigured = false := hA
  have hdF : (depsOfServices apns fcm).fcmIsConfigured = true := by
    show FCMService.isConfigured fcm = true
    simp [FCMService.isConfigured, he, hc]
  have hb1 : (("android" : String) == "ios") = false := by decide
  have hb2 : (("ios" : String) == "ios") = true := by decide
  have hb3 : (("android" : String) == "android") = true := by decide
  have hb4 : (("ios" : String) == "android") = false := by decide
  have hfilter_ios :
      (([{ token := a1, platform := "android" },
         { token := a2, platform := "android" },
         { token := i1, platform := "ios" }] : List DeviceRef).filter
        (fun d => d.platform == "ios")) =
      [{ token := i1, platform := "ios" }] := by
    simp [List.filter_cons, hb1, hb2]
  have hfilter_android :
      (([{ token := a1, platform := "android" },
         { token := a2, platform := "android" },
         { token := i1, platform := "ios" }] : List DeviceRef).filter
        (fun d => d.platform == "android")) =
      [{ token := a1, platform := "android" },
       { token := a2, platform := "android" }] := by
    simp [List.filter_cons, hb3, hb4]
  have hios := @routerSendToTokens_ios_not_configured
    (depsOfServices apns fcm) [i1] payload (by simp) hdA
  have hfcmspec := fcmSendToTokens_spec fcm cfg hc he [a1, a2] payload (by simp)
  have handroid : PushNotificationService.sendToTokens (depsOfServices apns fcm)
      [a1, a2] "android" payload =
      { result := (FCMService.sendToTokens fcm [a1, a2] payload).result
        apnsCalls := 0, fcmCalls := 1 } := by
    rw [routerSendToTokens_android_configured (by simp) hdF]
    rfl
  simp only [PushNotificationService.sendToDevices, hfilter_ios,
    hfilter_android, List.map_cons, List.map_nil, List.length_cons,
    List.length_nil]
  simp only [hios, handroid, hfcmspec, addGroupResult, createEmptyResult]
  refine ⟨by simp, by simp, by simp, by simp⟩

/-- Closed witness for the amended C2 theorem: unconfigured APNs,
configured legacy FCM, devices `a1`/`a2` (android) and `i1` (ios). -/
theorem C2_amended_mixed_devices_witness :
    APNsService.isConfigured apnsUnconfigured = false ∧
    fcmLegacyAllOk.config = some fcmLegacyConfig ∧
    fcmLegacyAllOk.endpointPresent = true ∧
    ((PushNotificationService.sendToDevices
        (depsOfServices apnsUnconfigured fcmLegacyAllOk)
        [{ token := "a1", platform := "android" },
         { token := "a2", platform := "android" },
         { token := "i1", platform := "ios" }]
        samplePayload).result.totalDevices = 3 ∧
    (PushNotificationService.sendToDevices
        (depsOfServices apnsUnconfigured fcmLegacyAllOk)
        [{ token := "a1", platform := "android" },
         { token := "a2", platform := "android" },
         { token := "i1", platform := "ios" }]
        samplePayload).result.results.head? =
      some { success := false, token := "i1"
             error := some { code := "not_configured"
                             message := "Push notification service not configured" } } ∧
    1 ≤ (PushNotificationService.sendToDevices
        (depsOfServices apnsUnconfigured fcmLegacyAllOk)
        [{ token := "a1", platform := "android" },
         { token := "a2", platform := "android" },
         { token := "i1", platform := "ios" }]
        samplePayload).result.failedCount ∧
    (PushNotificationService.sendToDevices
        (depsOfServices apnsUnconfigured fcmLegacyAllOk)
        [{ token := "a1", platform := "android" },
         { token := "a2", platform := "android" },
         { token := "i1", platform := "ios" }]
        samplePayload).result.deliveredTo =
      (["a1", "a2"] : List String).countP
        (fun t =>
          (fcmProcessToken fcmLegacyAllOk fcmLegacyConfig samplePayload
            t).1.success)) :=
  ⟨by decide, rfl, rfl,
    C2_amended_mixed_devices apnsUnconfigured fcmLegacyAllOk fcmLegacyConfig
      (by decide) rfl rfl "a1" "a2" "i1" samplePayload⟩

/-- **C8**: device registration is idempotent — from any database state
satisfying the schema invariants (row ids unique and below `nextId`, at
most one row per `(userId, token)` pair, as the unique index enforces),
calling `registerToken` twice with identical arguments leaves exactly one
row for the pair; the second call updates that row's `lastActiveAt` to its
own clock value instead of inserting: the row count does not change
between the first and the second call. -/
theorem C8_registerToken_idempotent (db : DeviceDB) (u t : String)
    (p dep : Option String) (t1 t2 : Nat)
    (hid : (db.rows.map DeviceRow.id).Nodup)
    (hfresh : ∀ r ∈ db.rows, r.id < db.nextId)
    (hpair : countUserToken db u t ≤ 1) :
    countUserToken
      (NotificationService.registerToken
        (NotificationService.registerToken db u t p dep t1) u t p dep t2)
      u t = 1 ∧
    (NotificationService.registerToken
        (NotificationService.registerToken db u t p dep t1) u t p dep
        t2).rows.length =
      (NotificationService.registerToken db u t p dep t1).rows.length ∧
    ∀ r ∈ (NotificationService.registerToken
        (NotificationService.registerToken db u t p dep t1) u t p dep t2).rows,
      matchesUserToken u t r = true → r.lastActiveAt = t2 := by
  obtain ⟨h1count, h1id, h1fresh, h1last, h1len⟩ :=
    registerToken_step db u t p dep t1 hid hfresh hpair
  obtain ⟨h2count, h2id, h2fresh, h2last, h2len⟩ :=
    registerToken_step (NotificationService.registerToken db u t p dep t1)
      u t p dep t2 h1id h1fresh (by omega)
  refine ⟨h2count, ?_, h2last⟩
  apply h2len
  have hsome : (findOneByUserToken
      (NotificationService.registerToken db u t p dep t1) u t).isSome := by
    rw [findOneByUserToken, List.find?_isSome]
    have hpos : 0 < countUserToken
        (NotificationService.registerToken db u t p dep t1) u t := by omega
    rw [countUserToken, List.countP_pos_iff] at hpos
    exact hpos
  exact Option.isSome_iff_ne_none.mp hsome

/-- Closed witness for the C8 theorem: an empty device table, registering
`("u1", "tok")` at clock 10 and again at clock 20. -/
theorem C8_registerToken_idempotent_witness :
    ((({ rows := [], nextId := 0 } : DeviceDB).rows.map DeviceRow.id).Nodup) ∧
    (∀ r ∈ ({ rows := [], nextId := 0 } : DeviceDB).rows,
      r.id < ({ rows := [], nextId := 0 } : DeviceDB).nextId) ∧
    countUserToken { rows := [], nextId := 0 } "u1" "tok" ≤ 1 ∧
    (countUserToken
      (NotificationService.registerToken
        (NotificationService.registerToken { rows := [], nextId := 0 }
          "u1" "tok" (some "ios") (some "d1") 10)
        "u1" "tok" (some "ios") (some "d1") 20) "u1" "tok" = 1 ∧
    (NotificationService.registerToken
        (NotificationService.registerToken { rows := [], nextId := 0 }
          "u1" "tok" (some "ios") (some "d1") 10)
        "u1" "tok" (some "ios") (some "d1") 20).rows.length =
      (NotificationService.registerToken { rows := [], nextId := 0 }
        "u1" "tok" (some "ios") (some "d1") 10).rows.length ∧
    ∀ r ∈ (NotificationService.registerToken
        (NotificationService.registerToken { rows := [], nextId := 0 }
          "u1" "tok" (some "ios") (some "d1") 10)
        "u1" "tok" (some "ios") (some "d1") 20).rows,
      matchesUserToken "u1" "tok" r = true → r.lastActiveAt = 20) :=
  ⟨by decide, by decide, by decide,
    C8_registerToken_idempotent { rows := [], nextId := 0 } "u1" "tok"
      (some "ios") (some "d1") 10 20 (by decide) (by decide) (by decide)⟩

end Unimate
